import Mathlib

/-!
# Verification of the trey-research HR-consultant MCP server

A shallow embedding of the protocol-handling core of the repository:
the origin allow-list (`server/src/index.ts`, Express shell), the widget
registry loader (`readWidgetHtml` / `loadWidgets` in `mcp-server.ts`),
the tool catalog, the zod argument validators and the `call-tool` /
`read-resource` dispatch handlers, together with a model of the
Azure-table data layer (`db.ts`) as a pure state.

Modelling conventions:
* JS strings are Lean `String`s; string primitives (`startsWith`,
  `endsWith`, `includes`, `replace`, `split`, `trim`, `toLowerCase`)
  are re-implemented over `String.data` character lists so that the
  kernel can evaluate them on concrete inputs.
* The WHATWG `new URL(...)` parser is modelled for origin-shaped inputs
  `scheme://host[:port][/path...]` (lower-casing ASCII scheme and host);
  inputs without a valid `scheme://` part fail to parse, matching the
  `try { new URL(x) } catch` pattern in the source.  Punycode/IDNA,
  userinfo, IPv6 brackets and default-port elision are outside the
  model; no claim depends on them.
* Asynchronous table-storage calls are modelled as pure functions on an
  explicit `Db` state; a thrown JS exception is an `Except.error`.
* JS numbers appearing in the handlers (forecast hours, rates) are
  modelled as integers; the seed data uses integral values and no claim
  depends on float arithmetic.
-/

/-! ## Character-list string primitives -/

/-- `s.startsWith p` on JS strings. -/
def strStartsWith (s p : String) : Bool :=
  p.data.isPrefixOf s.data

/-- `s.endsWith p` on JS strings. -/
def strEndsWith (s p : String) : Bool :=
  p.data.isSuffixOf s.data

/-- Does `pat` occur (as a contiguous block) starting at index `i` of `s`? -/
def occursAt (pat s : List Char) (i : Nat) : Prop :=
  pat.isPrefixOf (s.drop i)

instance (pat s : List Char) (i : Nat) : Decidable (occursAt pat s i) := by
  unfold occursAt; infer_instance

/-- JS `s.includes(pat)` (substring test) on character lists. -/
def listHasSub (pat s : List Char) : Bool :=
  (List.range (s.length + 1)).any fun i => pat.isPrefixOf (s.drop i)

/-- JS `s.includes(pat)` on strings. -/
def strHasSub (s pat : String) : Bool :=
  listHasSub pat.data s.data

/-- ASCII lower-casing of a string, JS `s.toLowerCase()` restricted to ASCII. -/
def strToLower (s : String) : String :=
  ⟨s.data.map Char.toLower⟩

/-- Split `s` at the first occurrence of `pat` (nonempty), returning the
pieces before and after it; `none` when `pat` does not occur. -/
def splitFirstSub : List Char → List Char → Option (List Char × List Char)
  | _, [] => none
  | [], _ :: _ => none
  | c :: rest, pat =>
    if pat.isPrefixOf (c :: rest) then
      some ([], (c :: rest).drop pat.length)
    else
      match splitFirstSub rest pat with
      | some (pre, post) => some (c :: pre, post)
      | none => none

/-- JS `String.prototype.replace` with a plain-string pattern: replace the
first occurrence of `pat` by `repl`, leaving the string unchanged when the
pattern is absent (`pat` is assumed nonempty, as in the source usage). -/
def replaceFirst (pat repl : List Char) : List Char → List Char
  | [] => []
  | c :: rest =>
    if pat.isPrefixOf (c :: rest) then
      repl ++ (c :: rest).drop pat.length
    else
      c :: replaceFirst pat repl rest

/-- `replaceFirst` lifted to strings. -/
def strReplaceFirst (s pat repl : String) : String :=
  ⟨replaceFirst pat.data repl.data s.data⟩

/-- JS whitespace test for `String.prototype.trim` (ASCII fragment). -/
def isJsSpace (c : Char) : Bool :=
  c = ' ' ∨ c = '\t' ∨ c = '\n' ∨ c = '\r' ∨ c = '\x0b' ∨ c = '\x0c'

/-- JS `s.trim()`. -/
def strTrim (s : String) : String :=
  ⟨(s.data.dropWhile isJsSpace).reverse.dropWhile isJsSpace |>.reverse⟩

/-- JS `s.split(sep)` for a single-character separator. -/
def splitOnChar (sep : Char) (s : String) : List String :=
  (s.data.splitOn sep).map fun cs => ⟨cs⟩

/-- JS `Array.prototype.join(sep)`. -/
def joinSep (sep : String) : List String → String
  | [] => ""
  | [x] => x
  | x :: y :: rest => x ++ sep ++ joinSep sep (y :: rest)

/-! ## WHATWG URL model (restricted to origin-shaped inputs) -/

/-- Scheme characters allowed after the leading letter. -/
def isSchemeChar (c : Char) : Bool :=
  c.isAlpha ∨ c.isDigit ∨ c = '+' ∨ c = '-' ∨ c = '.'

/-- A character that terminates the host portion of an authority. -/
def isHostEnd (c : Char) : Bool :=
  c = '/' ∨ c = '?' ∨ c = '#'

/-- The components of a parsed URL that the server consults. -/
structure UrlParts where
  scheme : String
  hostname : String
  port : String
  deriving Repr, DecidableEq

/-- `new URL(s)` restricted to the fields the server reads.  Succeeds on
`scheme://host[:port][/...]` with a well-formed scheme and an all-digit
(or absent) port; any other input models the constructor throwing. -/
def parseUrl (s : String) : Option UrlParts :=
  match splitFirstSub s.data [':', '/', '/'] with
  | none => none
  | some (scheme, rest) =>
    match scheme with
    | [] => none
    | c :: cs =>
      if c.isAlpha ∧ cs.all isSchemeChar then
        let authority := rest.takeWhile (fun ch => ¬ isHostEnd ch)
        let host := authority.takeWhile (fun ch => ch ≠ ':')
        let port := (authority.dropWhile (fun ch => ch ≠ ':')).drop 1
        if port.all Char.isDigit then
          some { scheme := ⟨(c :: cs).map Char.toLower⟩
                 hostname := ⟨host.map Char.toLower⟩
                 port := ⟨port⟩ }
        else none
      else none

/-- `new URL(origin).hostname`, `none` when the constructor throws. -/
def urlHostname (origin : String) : Option String :=
  (parseUrl origin).map UrlParts.hostname

/-- `new URL(base).origin` for the http(s)-style URLs this server is
configured with: `scheme://host[:port]`. -/
def urlOrigin (u : UrlParts) : String :=
  u.scheme ++ "://" ++ u.hostname ++ (if u.port = "" then "" else ":" ++ u.port)

/-! ## Origin allow-list (`server/src/index.ts`) -/

/-- `STATIC_ALLOWED_ORIGINS`: exact origins and dot-prefixed wildcard
suffixes, verbatim from the source. -/
def STATIC_ALLOWED_ORIGINS : List String :=
  [ "http://localhost"
  , "http://127.0.0.1"
  , "https://localhost"
  , "https://127.0.0.1"
  , "vscode-webview://"
  , ".chatgpt.com"
  , ".openai.com"
  , ".widgetcopilot.net"
  , ".microsoft.com"
  , ".cloud.microsoft"
  , ".office.com"
  , ".office365.com"
  , ".sharepoint.com"
  , ".live.com"
  , ".microsoft365.com"
  , ".teams.microsoft.com"
  , ".devtunnels.ms"
  , ".ngrok-free.app"
  , ".ngrok.io"
  , ".loca.lt"
  , ".trycloudflare.com"
  ]

/-- The trimmed, nonempty items of the comma-separated
`ADDITIONAL_ALLOWED_ORIGINS` override list. -/
def extraOriginItems (extra : String) : List String :=
  ((splitOnChar ',' extra).map strTrim).filter fun t => t ≠ ""

/-- `buildAllowedOrigins()`: the static table, plus the parsed
`SERVER_BASE_URL` contribution (its origin and a dot-wildcard for its
hostname; a malformed URL is silently skipped), plus the trimmed nonempty
items of `ADDITIONAL_ALLOWED_ORIGINS` (pushed verbatim).  The two
environment inputs are passed explicitly (`none` = unset). -/
def buildAllowedOrigins (serverBase extra : Option String) : List String :=
  let origins := STATIC_ALLOWED_ORIGINS
  let origins := origins ++
    (match serverBase with
     | none => []
     | some base =>
       match parseUrl base with
       | some u => [urlOrigin u, "." ++ u.hostname]
       | none => [])
  origins ++
    (match extra with
     | none => []
     | some e => extraOriginItems e)

/-- One iteration of the `for (const entry of ALLOWED_ORIGINS)` loop body of
`isOriginAllowed`: does `entry` accept origin `o`?  (A `continue` in the
source corresponds to returning `false` here.) -/
def entryAllows (entry o : String) : Bool :=
  if strEndsWith entry "://" ∧ strStartsWith o entry then true
  else if (entry = "http://localhost" ∨ entry = "https://localhost") ∧ strStartsWith o entry then true
  else if (entry = "http://127.0.0.1" ∨ entry = "https://127.0.0.1") ∧ strStartsWith o entry then true
  else if strStartsWith entry "." then
    match urlHostname o with
    | some hostname => strEndsWith hostname entry ∨ hostname = ⟨entry.data.drop 1⟩
    | none => false
  else o = entry

/-- `isOriginAllowed(origin)` from `server/src/index.ts`, checked against an
explicit allow-list.  `none` models an absent `Origin` header; the JS
falsiness test `!origin` also accepts the empty string. -/
def isOriginAllowed (entries : List String) (origin : Option String) : Bool :=
  match origin with
  | none => true
  | some o =>
    if o = "" ∨ o = "null" then true
    else entries.any fun entry => entryAllows entry o

/-! ## The spec's reference origin matcher (§4.3 / §9 of the spec)

Modelled from the spec's words, for comparison with `isOriginAllowed`:
each allow-list entry is classified into exactly one typed matcher
variant (`SchemePre`, `LocalhostAnyPort`, `DomainSuffix`, `ExactEntry`),
classification following the spec's rule order 2–5, and the request is
allowed when rule 1 applies (missing or `"null"` origin) or when some
entry's matcher accepts the origin. -/

/-- The spec's typed matcher variants for allow-list entries. -/
inductive OriginMatcher where
  /-- Rule 2: entry ends in `://`; accepts origins starting with it. -/
  | schemeStart (p : String)
  /-- Rule 3: entry is literally `http(s)://localhost` or
  `http(s)://127.0.0.1`; accepts origins starting with it (any port). -/
  | localhostAnyPort (p : String)
  /-- Rule 4: dot-prefixed wildcard; accepts origins whose hostname equals
  the suffix minus its leading dot or ends with the full dotted suffix. -/
  | domainSuffix (s : String)
  /-- Rule 5: exact string equality. -/
  | exactEntry (e : String)
  deriving Repr, DecidableEq

/-- The four literal localhost entries of rule 3. -/
def localhostLiterals : List String :=
  ["http://localhost", "https://localhost", "http://127.0.0.1", "https://127.0.0.1"]

/-- Classify an allow-list entry into its matcher variant, first matching
rule (in the spec's order) winning. -/
def classifyEntry (entry : String) : OriginMatcher :=
  if strEndsWith entry "://" then .schemeStart entry
  else if entry ∈ localhostLiterals then .localhostAnyPort entry
  else if strStartsWith entry "." then .domainSuffix entry
  else .exactEntry entry

/-- `matches(origin)` for one typed matcher. -/
def matcherAccepts (m : OriginMatcher) (o : String) : Bool :=
  match m with
  | .schemeStart p => strStartsWith o p
  | .localhostAnyPort p => strStartsWith o p
  | .domainSuffix s =>
    match urlHostname o with
    | some hostname => strEndsWith hostname s ∨ hostname = ⟨s.data.drop 1⟩
    | none => false
  | .exactEntry e => o = e

/-- The spec's reference `isAllowed(originHeader)`: rule 1 (missing — absent
or empty header — or literal `"null"`), else some entry's matcher accepts;
if no entry matches, deny. -/
def specIsAllowed (entries : List String) (origin : Option String) : Bool :=
  match origin with
  | none => true
  | some o =>
    if o = "" ∨ o = "null" then true
    else entries.any fun entry => matcherAccepts (classifyEntry entry) o

/-! ## JSON values (`JSON.parse` / `JSON.stringify`)

The data layer stores multi-valued fields (skills, roles, forecast, …)
as JSON-encoded strings which the handlers re-parse.  `Jv` models a JSON
value; numbers are modelled as integers (the seed data is integral and
no claim depends on float arithmetic). -/

/-- A JSON value. -/
inductive Jv where
  | str (s : String)
  | num (n : Int)
  | bool (b : Bool)
  | null
  | arr (items : List Jv)
  | obj (fields : List (String × Jv))
  deriving Repr, BEq

/-- The `\x7b` character (opening curly bracket). -/
def lcurly : Char := Char.ofNat 123

/-- The `\x7d` character (closing curly bracket). -/
def rcurly : Char := Char.ofNat 125

/-- JSON insignificant whitespace. -/
def isJsonWs (c : Char) : Bool :=
  c = ' ' ∨ c = '\t' ∨ c = '\n' ∨ c = '\r'

/-- Decode one JSON escape character (after a backslash); `\uXXXX`
escapes are handled separately. -/
def jsonUnescape (c : Char) : Option Char :=
  if c = '"' then some '"'
  else if c = '\\' then some '\\'
  else if c = '/' then some '/'
  else if c = 'n' then some '\n'
  else if c = 't' then some '\t'
  else if c = 'r' then some '\r'
  else if c = 'b' then some '\x08'
  else if c = 'f' then some '\x0c'
  else none

/-- Hex digit value. -/
def hexVal (c : Char) : Option Nat :=
  if c.isDigit then some (c.toNat - '0'.toNat)
  else if 'a' ≤ c ∧ c ≤ 'f' then some (c.toNat - 'a'.toNat + 10)
  else if 'A' ≤ c ∧ c ≤ 'F' then some (c.toNat - 'A'.toNat + 10)
  else none

/-- Parse a JSON string body (after its opening quote); returns the
decoded string and the remaining input.  Fuelled for termination. -/
def jpString : Nat → List Char → Option (String × List Char)
  | 0, _ => none
  | _ + 1, [] => none
  | fuel + 1, c :: rest =>
    if c = '"' then some ("", rest)
    else if c = '\\' then
      match rest with
      | [] => none
      | e :: rest2 =>
        if e = 'u' then
          match rest2 with
          | h1 :: h2 :: h3 :: h4 :: rest3 =>
            match hexVal h1, hexVal h2, hexVal h3, hexVal h4 with
            | some v1, some v2, some v3, some v4 =>
              match jpString fuel rest3 with
              | some (s, r) =>
                some (⟨Char.ofNat (((v1 * 16 + v2) * 16 + v3) * 16 + v4) :: s.data⟩, r)
              | none => none
            | _, _, _, _ => none
          | _ => none
        else
          match jsonUnescape e with
          | some d =>
            match jpString fuel rest2 with
            | some (s, r) => some (⟨d :: s.data⟩, r)
            | none => none
          | none => none
    else
      match jpString fuel rest with
      | some (s, r) => some (⟨c :: s.data⟩, r)
      | none => none

/-- Parse an optionally signed JSON integer. -/
def jpNumber (cs : List Char) : Option (Int × List Char) :=
  let (neg, cs1) := match cs with
    | '-' :: t => (true, t)
    | _ => (false, cs)
  let digits := cs1.takeWhile Char.isDigit
  let rest := cs1.dropWhile Char.isDigit
  if digits = [] then none
  else
    let n : Nat := digits.foldl (fun acc d => acc * 10 + (d.toNat - '0'.toNat)) 0
    some (if neg then -(n : Int) else (n : Int), rest)

mutual

/-- Parse one JSON value (leading whitespace allowed). -/
def jpValue : Nat → List Char → Option (Jv × List Char)
  | 0, _ => none
  | fuel + 1, cs =>
    match cs.dropWhile isJsonWs with
    | [] => none
    | c :: rest =>
      if c = '"' then
        match jpString (fuel + 1) rest with
        | some (s, r) => some (.str s, r)
        | none => none
      else if c = '[' then
        jpArrayItems fuel rest []
      else if c = lcurly then
        jpObjFields fuel rest []
      else if c = 't' then
        if ['r', 'u', 'e'].isPrefixOf rest then some (.bool true, rest.drop 3) else none
      else if c = 'f' then
        if ['a', 'l', 's', 'e'].isPrefixOf rest then some (.bool false, rest.drop 4) else none
      else if c = 'n' then
        if ['u', 'l', 'l'].isPrefixOf rest then some (.null, rest.drop 3) else none
      else
        match jpNumber (c :: rest) with
        | some (n, r) => some (.num n, r)
        | none => none

/-- Parse the items of a JSON array (after `[` or a separating comma),
accumulating in reverse. -/
def jpArrayItems : Nat → List Char → List Jv → Option (Jv × List Char)
  | 0, _, _ => none
  | fuel + 1, cs, acc =>
    match cs.dropWhile isJsonWs with
    | ']' :: rest =>
      if acc.isEmpty then some (.arr [], rest) else none
    | cs1 =>
      match jpValue fuel cs1 with
      | none => none
      | some (v, r) =>
        match r.dropWhile isJsonWs with
        | ',' :: r2 => jpArrayItems fuel r2 (v :: acc)
        | ']' :: r2 => some (.arr ((v :: acc).reverse), r2)
        | _ => none

/-- Parse the fields of a JSON object (after the opening bracket or a
separating comma), accumulating in reverse. -/
def jpObjFields : Nat → List Char → List (String × Jv) → Option (Jv × List Char)
  | 0, _, _ => none
  | fuel + 1, cs, acc =>
    match cs.dropWhile isJsonWs with
    | [] => none
    | c :: rest =>
      if c = rcurly then
        if acc.isEmpty then some (.obj [], rest) else none
      else if c = '"' then
        match jpString (fuel + 1) rest with
        | none => none
        | some (k, r) =>
          match r.dropWhile isJsonWs with
          | ':' :: r2 =>
            match jpValue fuel r2 with
            | none => none
            | some (v, r3) =>
              match r3.dropWhile isJsonWs with
              | ',' :: r4 => jpObjFields fuel r4 ((k, v) :: acc)
              | d :: r4 =>
                if d = rcurly then some (.obj ((k, v) :: acc).reverse, r4) else none
              | _ => none
          | _ => none
      else none

end

/-- `JSON.parse(s)`: parse a complete JSON document, `none` models the
parser throwing. -/
def jsonParse (s : String) : Option Jv :=
  match jpValue (s.data.length + 1) s.data with
  | some (v, rest) => if rest.dropWhile isJsonWs = [] then some v else none
  | none => none

/-- Escape one character for a JSON string literal. -/
def jsonEscapeChar (c : Char) : List Char :=
  if c = '"' then ['\\', '"']
  else if c = '\\' then ['\\', '\\']
  else if c = '\n' then ['\\', 'n']
  else if c = '\r' then ['\\', 'r']
  else if c = '\t' then ['\\', 't']
  else if c = '\x08' then ['\\', 'b']
  else if c = '\x0c' then ['\\', 'f']
  else if c.toNat < 32 then
    let hi := c.toNat / 16
    let lo := c.toNat % 16
    ['\\', 'u', '0', '0',
      (if hi < 10 then Char.ofNat ('0'.toNat + hi) else Char.ofNat ('a'.toNat + hi - 10)),
      (if lo < 10 then Char.ofNat ('0'.toNat + lo) else Char.ofNat ('a'.toNat + lo - 10))]
  else [c]

/-- `JSON.stringify` of a string. -/
def jsonQuote (s : String) : String :=
  ⟨'"' :: (s.data.flatMap jsonEscapeChar) ++ ['"']⟩

/-- `JSON.stringify` of an array of strings (no added whitespace, as JS). -/
def jsonStringifyStrList (xs : List String) : String :=
  "[" ++ joinSep "," (xs.map jsonQuote) ++ "]"

/-! ## Data layer (`server/src/db.ts`) as a pure state

Azure-table entities keep their JSON-stringified multi-valued fields as
raw strings, exactly as stored.  Each table holds one partition
(`consultant` / `project` / `assignment`), so the constant partition key
is omitted and `rowKey` identifies an entity. -/

/-- A row of the `Consultants` table. -/
structure ConsultantEntity where
  rowKey : String
  name : String
  email : String
  phone : String
  consultantPhotoUrl : String
  location : String
  skills : String
  certifications : String
  roles : String
  deriving Repr, DecidableEq

/-- A row of the `Projects` table. -/
structure ProjectEntity where
  rowKey : String
  name : String
  description : String
  clientName : String
  clientContact : String
  clientEmail : String
  location : String
  deriving Repr, DecidableEq

/-- A row of the `Assignments` table. -/
structure AssignmentEntity where
  rowKey : String
  projectId : String
  consultantId : String
  role : String
  billable : Bool
  rate : Int
  forecast : String
  delivered : String
  deriving Repr, DecidableEq

/-- The three tables, as one explicit state. -/
structure Db where
  consultants : List ConsultantEntity
  projects : List ProjectEntity
  assignments : List AssignmentEntity
  deriving Repr, DecidableEq

/-- `getAllConsultants()`. -/
def getAllConsultants (st : Db) : List ConsultantEntity :=
  st.consultants

/-- `getAllProjects()`. -/
def getAllProjects (st : Db) : List ProjectEntity :=
  st.projects

/-- `getAllAssignments()`. -/
def getAllAssignments (st : Db) : List AssignmentEntity :=
  st.assignments

/-- `getConsultantById(id)`; `none` models the `catch` returning `null`. -/
def getConsultantById (st : Db) (id : String) : Option ConsultantEntity :=
  st.consultants.find? fun c => c.rowKey = id

/-- `getProjectById(id)`. -/
def getProjectById (st : Db) (id : String) : Option ProjectEntity :=
  st.projects.find? fun p => p.rowKey = id

/-- `getAssignmentsByProject(projectId)`. -/
def getAssignmentsByProject (st : Db) (projectId : String) : List AssignmentEntity :=
  st.assignments.filter fun a => a.projectId = projectId

/-- `getAssignmentsByConsultant(consultantId)`. -/
def getAssignmentsByConsultant (st : Db) (consultantId : String) : List AssignmentEntity :=
  st.assignments.filter fun a => a.consultantId = consultantId

/-- The update record passed to `updateConsultant` by the (bulk-)update
handlers: each field optional, array fields re-stringified on merge. -/
structure ConsultantUpdates where
  name : Option String
  email : Option String
  phone : Option String
  skills : Option (List String)
  roles : Option (List String)
  deriving Repr, DecidableEq

/-- The field merge of `updateConsultant`: present update fields replace
the stored ones, array-valued fields via `JSON.stringify`. -/
def mergeConsultant (c : ConsultantEntity) (u : ConsultantUpdates) : ConsultantEntity :=
  { c with
    name := u.name.getD c.name
    email := u.email.getD c.email
    phone := u.phone.getD c.phone
    skills := (u.skills.map jsonStringifyStrList).getD c.skills
    roles := (u.roles.map jsonStringifyStrList).getD c.roles }

/-- `updateConsultant(id, updates)`: read, merge, replace, re-read.
Returns the re-read entity together with the new table state;
`(none, st)` when the consultant does not exist. -/
def updateConsultant (st : Db) (id : String) (u : ConsultantUpdates) :
    Option ConsultantEntity × Db :=
  match getConsultantById st id with
  | none => (none, st)
  | some c =>
    let merged := mergeConsultant c u
    let st' := { st with
      consultants := st.consultants.map fun x => if x.rowKey = id then merged else x }
    (getConsultantById st' id, st')

/-- `createAssignment(data)`: upsert (`Replace` mode) keyed by
`projectId,consultantId`; handlers pass no forecast, so it is
stringified from the empty list. -/
def createAssignment (st : Db) (projectId consultantId role : String)
    (billable : Option Bool) (rate : Option Int) : AssignmentEntity × Db :=
  let rowKey := projectId ++ "," ++ consultantId
  let e : AssignmentEntity :=
    { rowKey := rowKey
      projectId := projectId
      consultantId := consultantId
      role := role
      billable := billable.getD true
      rate := rate.getD 0
      forecast := jsonStringifyStrList []
      delivered := jsonStringifyStrList [] }
  if st.assignments.any fun a => a.rowKey = rowKey then
    (e, { st with assignments := st.assignments.map fun a => if a.rowKey = rowKey then e else a })
  else
    (e, { st with assignments := st.assignments ++ [e] })

/-- `deleteAssignment(projectId, consultantId)`: `true` and the pruned
state on success, `false` (caught `deleteEntity` error) when absent. -/
def deleteAssignment (st : Db) (projectId consultantId : String) : Bool × Db :=
  let rowKey := projectId ++ "," ++ consultantId
  if st.assignments.any fun a => a.rowKey = rowKey then
    (true, { st with assignments := st.assignments.filter fun a => ¬ a.rowKey = rowKey })
  else
    (false, st)

/-! ## Widget registry (`mcp-server.ts`) -/

/-- `MIME_TYPE`. -/
def MIME_TYPE : String := "text/html+skybridge"

/-- A widget descriptor (`HRWidget`). -/
structure HRWidget where
  id : String
  title : String
  templateUri : String
  invoking : String
  invoked : String
  html : String
  deriving Repr, DecidableEq

/-- The per-process widget registry populated by `loadWidgets`. -/
structure WidgetRegistry where
  dashboard : HRWidget
  profile : HRWidget
  bulkEditor : HRWidget
  deriving Repr, DecidableEq

/-- The asset directory: `none` when absent, otherwise the directory's
(filename, content) entries. -/
def FsModel : Type := Option (List (String × String))

/-- Content of a directory entry by filename. -/
def lookupFile (files : List (String × String)) (name : String) : Option String :=
  (files.find? fun p => p.1 = name).map Prod.snd

/-- The `<script>` snippet injected by `readWidgetHtml`, carrying the
public server URL. -/
def serverUrlSnippet (serverUrl : String) : String :=
  "<script>window.__SERVER_BASE_URL__=" ++ jsonQuote serverUrl ++ ";</script>"

/-- The injection step of `readWidgetHtml`: place the snippet right after
the first `<head>` open tag (JS `String.replace` with a string pattern
replaces only the first occurrence). -/
def injectServerUrl (serverUrl html : String) : String :=
  strReplaceFirst html "<head>" ("<head>" ++ serverUrlSnippet serverUrl)

/-- Lexicographic (code-point) comparison of character lists, the
comparison used by JS `Array.prototype.sort()` on BMP strings. -/
def charListLe : List Char → List Char → Bool
  | [], _ => true
  | _ :: _, [] => false
  | a :: as, b :: bs => if a < b then true else if a = b then charListLe as bs else false

/-- `charListLe` on strings. -/
def strLe (a b : String) : Bool :=
  charListLe a.data b.data

/-- The lexicographically last element of a list of names (JS
`array.sort()` followed by `array[array.length - 1]`). -/
def sortedLast (l : List String) : Option String :=
  (l.insertionSort fun a b => strLe a b = true).getLast?

/-- The content-hashed fallback candidates for a widget id: directory
entries named `{id}-*.html`. -/
def widgetCandidates (files : List (String × String)) (componentName : String) :
    List String :=
  (files.map Prod.fst).filter fun f =>
    strStartsWith f (componentName ++ "-") ∧ strEndsWith f ".html"

/-- The markup-resolution part of `readWidgetHtml`: the state of the
source's `let html: string | undefined` after the lookup chain — the
exact `{id}.html` entry if present (the hashed fallback is not consulted
then, even when that content is empty), otherwise the lexicographically
last `{id}-*.html` entry.  May yield `some ""`, which `readWidgetHtml`
then rejects via the source's `if (!html)` falsiness check. -/
def resolveWidgetMarkup (files : List (String × String)) (componentName : String) :
    Option String :=
  match lookupFile files (componentName ++ ".html") with
  | some h => some h
  | none =>
    match sortedLast (widgetCandidates files componentName) with
    | some fallback => lookupFile files fallback
    | none => none

/-- `readWidgetHtml(componentName)`: throws (`.error`) when the asset
directory is missing, no matching artifact exists, or the resolved
content is empty — the source's `if (!html) throw` is a JS falsiness
test, so `html === ""` takes the same thrown `not found` path as
`undefined`; otherwise the resolved markup with the server-URL snippet
injected.  (The thrown messages are abbreviated: the source
interpolates the assets path.) -/
def readWidgetHtml (fsys : FsModel) (serverUrl componentName : String) :
    Except String String :=
  match fsys with
  | none => .error "Widget assets not found. Run npm run build:widgets first."
  | some files =>
    match resolveWidgetMarkup files componentName with
    | none => .error ("Widget HTML for " ++ componentName ++ " not found.")
    | some html =>
      if html = "" then .error ("Widget HTML for " ++ componentName ++ " not found.")
      else .ok (injectServerUrl serverUrl html)

/-- `loadWidgets()`: builds the three widget descriptors, reading and
injecting each markup once. -/
def loadWidgets (fsys : FsModel) (serverUrl : String) : Except String WidgetRegistry := do
  let dashHtml ← readWidgetHtml fsys serverUrl "hr-dashboard"
  let profHtml ← readWidgetHtml fsys serverUrl "consultant-profile"
  let bulkHtml ← readWidgetHtml fsys serverUrl "bulk-editor"
  pure
    { dashboard :=
        { id := "hr-dashboard"
          title := "HR Dashboard"
          templateUri := "ui://widget/hr-dashboard.html"
          invoking := "Loading HR dashboard…"
          invoked := "Dashboard ready"
          html := dashHtml }
      profile :=
        { id := "consultant-profile"
          title := "Consultant Profile"
          templateUri := "ui://widget/consultant-profile.html"
          invoking := "Loading consultant profile…"
          invoked := "Profile ready"
          html := profHtml }
      bulkEditor :=
        { id := "bulk-editor"
          title := "Bulk Editor"
          templateUri := "ui://widget/bulk-editor.html"
          invoking := "Opening bulk editor…"
          invoked := "Editor ready"
          html := bulkHtml } }

/-- The lazy-singleton guard of `createHRServer` (`if (!DASHBOARD_WIDGET)
loadWidgets()`): with a populated cache the registry is reused untouched;
on first use it is loaded from the asset store.  A load failure
propagates as a thrown error out of server construction, before any
request is dispatched. -/
def createHRServer (cache : Option WidgetRegistry) (fsys : FsModel) (serverUrl : String) :
    Except String WidgetRegistry :=
  match cache with
  | some reg => .ok reg
  | none => loadWidgets fsys serverUrl

/-- `getWidgets()` in registry order. -/
def getWidgets (reg : WidgetRegistry) : List HRWidget :=
  [reg.dashboard, reg.profile, reg.bulkEditor]

/-- The `_meta` record attached to descriptors and responses
(`descriptorMeta` / `invocationMeta` build identical records). -/
structure WidgetMeta where
  outputTemplate : String
  invoking : String
  invoked : String
  widgetAccessible : Bool
  deriving Repr, DecidableEq

/-- `descriptorMeta(widget)`. -/
def descriptorMeta (w : HRWidget) : WidgetMeta :=
  { outputTemplate := w.templateUri
    invoking := w.invoking
    invoked := w.invoked
    widgetAccessible := true }

/-- `invocationMeta(widget)`. -/
def invocationMeta (w : HRWidget) : WidgetMeta :=
  { outputTemplate := w.templateUri
    invoking := w.invoking
    invoked := w.invoked
    widgetAccessible := true }

/-! ## Tool catalog (the `tools` array of `createHRServer`) -/

/-- Which widget a tool's `_meta: descriptorMeta(...)` references. -/
inductive WidgetId where
  | dashboard
  | profile
  | bulkEditor
  deriving Repr, DecidableEq

/-- Resolve a `WidgetId` against the registry. -/
def widgetOf (reg : WidgetRegistry) : WidgetId → HRWidget
  | .dashboard => reg.dashboard
  | .profile => reg.profile
  | .bulkEditor => reg.bulkEditor

/-- One tool descriptor: name, title, behavior annotations, and the
optional widget binding (presence of `_meta: descriptorMeta(...)`).
Description strings and the display-only JSON input schemas are not
modelled; runtime validation is the zod parsers below, as in the
source. -/
structure ToolDef where
  name : String
  title : String
  widgetBinding : Option WidgetId
  destructiveHint : Bool
  openWorldHint : Bool
  readOnlyHint : Bool
  deriving Repr, DecidableEq

/-- The registered tool catalog, in source order. -/
def tools : List ToolDef :=
  [ { name := "show-hr-dashboard", title := "Show HR Dashboard",
      widgetBinding := some .dashboard,
      destructiveHint := false, openWorldHint := false, readOnlyHint := true }
  , { name := "show-consultant-profile", title := "Show Consultant Profile",
      widgetBinding := some .profile,
      destructiveHint := false, openWorldHint := false, readOnlyHint := true }
  , { name := "search-consultants", title := "Search Consultants",
      widgetBinding := some .bulkEditor,
      destructiveHint := false, openWorldHint := false, readOnlyHint := true }
  , { name := "show-bulk-editor", title := "Show Bulk Editor",
      widgetBinding := some .bulkEditor,
      destructiveHint := false, openWorldHint := false, readOnlyHint := false }
  , { name := "update-consultant", title := "Update Consultant",
      widgetBinding := none,
      destructiveHint := true, openWorldHint := false, readOnlyHint := false }
  , { name := "bulk-update-consultants", title := "Bulk Update Consultants",
      widgetBinding := none,
      destructiveHint := true, openWorldHint := false, readOnlyHint := false }
  , { name := "show-project-details", title := "Show Project Details",
      widgetBinding := some .dashboard,
      destructiveHint := false, openWorldHint := false, readOnlyHint := true }
  , { name := "assign-consultant-to-project", title := "Assign Consultant to Project",
      widgetBinding := none,
      destructiveHint := false, openWorldHint := false, readOnlyHint := false }
  , { name := "bulk-assign-consultants", title := "Bulk Assign Consultants",
      widgetBinding := none,
      destructiveHint := false, openWorldHint := false, readOnlyHint := false }
  , { name := "remove-assignment", title := "Remove Assignment",
      widgetBinding := none,
      destructiveHint := true, openWorldHint := false, readOnlyHint := false }
  ]

/-- The registered tool names, in catalog order. -/
def toolNames : List String :=
  tools.map ToolDef.name

/-- The widget binding of a named tool. -/
def toolWidgetBinding (name : String) : Option WidgetId :=
  match tools.find? fun t => t.name = name with
  | some t => t.widgetBinding
  | none => none

/-! ## Runtime argument validation (the zod parsers)

`z.object(...).parse(args)` throws when `args` is not an object, a
required field is missing, or a present field has the wrong type;
optional fields accept absence but not a wrongly-typed or `null` value;
unknown keys are stripped.  `none` models the throw. -/

/-- The fields of a JSON object argument value. -/
def jvFields : Jv → Option (List (String × Jv))
  | .obj fs => some fs
  | _ => none

/-- Look up a field of an argument object (JS objects have unique keys). -/
def getField (fs : List (String × Jv)) (k : String) : Option Jv :=
  (fs.find? fun p => p.1 = k).map Prod.snd

/-- `z.string()` on a field value. -/
def jvAsStr : Jv → Option String
  | .str s => some s
  | _ => none

/-- `z.boolean()` on a field value. -/
def jvAsBool : Jv → Option Bool
  | .bool b => some b
  | _ => none

/-- `z.number()` on a field value (numbers modelled as integers). -/
def jvAsNum : Jv → Option Int
  | .num n => some n
  | _ => none

/-- `z.array(z.string())` on a field value. -/
def jvAsStrList : Jv → Option (List String)
  | .arr items => items.mapM jvAsStr
  | _ => none

/-- A required `z.string()` field. -/
def reqStrField (fs : List (String × Jv)) (k : String) : Option String :=
  getField fs k >>= jvAsStr

/-- A required `z.array(z.string())` field. -/
def reqStrListField (fs : List (String × Jv)) (k : String) : Option (List String) :=
  getField fs k >>= jvAsStrList

/-- An optional `z.string()` field. -/
def optStrField (fs : List (String × Jv)) (k : String) : Option (Option String) :=
  match getField fs k with
  | none => some none
  | some v => (jvAsStr v).map some

/-- An optional `z.boolean()` field. -/
def optBoolField (fs : List (String × Jv)) (k : String) : Option (Option Bool) :=
  match getField fs k with
  | none => some none
  | some v => (jvAsBool v).map some

/-- An optional `z.number()` field. -/
def optNumField (fs : List (String × Jv)) (k : String) : Option (Option Int) :=
  match getField fs k with
  | none => some none
  | some v => (jvAsNum v).map some

/-- An optional `z.array(z.string())` field. -/
def optStrListField (fs : List (String × Jv)) (k : String) : Option (Option (List String)) :=
  match getField fs k with
  | none => some none
  | some v => (jvAsStrList v).map some

/-- Parsed `dashboardParser` output. -/
structure DashboardArgs where
  consultantName : Option String
  projectName : Option String
  skill : Option String
  role : Option String
  billable : Option Bool
  deriving Repr, DecidableEq

/-- `dashboardParser.parse(args)`. -/
def dashboardParse (args : Jv) : Option DashboardArgs := do
  let fs ← jvFields args
  let consultantName ← optStrField fs "consultantName"
  let projectName ← optStrField fs "projectName"
  let skill ← optStrField fs "skill"
  let role ← optStrField fs "role"
  let billable ← optBoolField fs "billable"
  pure { consultantName, projectName, skill, role, billable }

/-- `profileParser.parse(args)`. -/
def profileParse (args : Jv) : Option String := do
  let fs ← jvFields args
  reqStrField fs "consultantId"

/-- Parsed `searchParser` / `bulkEditorParser` output (identical shapes:
optional `skill` and `name`). -/
structure SearchArgs where
  skill : Option String
  name : Option String
  deriving Repr, DecidableEq

/-- `searchParser.parse(args)`. -/
def searchParse (args : Jv) : Option SearchArgs := do
  let fs ← jvFields args
  let skill ← optStrField fs "skill"
  let name ← optStrField fs "name"
  pure { skill, name }

/-- `bulkEditorParser.parse(args)`. -/
def bulkEditorParse (args : Jv) : Option SearchArgs := do
  let fs ← jvFields args
  let skill ← optStrField fs "skill"
  let name ← optStrField fs "name"
  pure { skill, name }

/-- Parsed `updateParser` output. -/
structure UpdateArgs where
  consultantId : String
  updates : ConsultantUpdates
  deriving Repr, DecidableEq

/-- `updateParser.parse(args)`. -/
def updateParse (args : Jv) : Option UpdateArgs := do
  let fs ← jvFields args
  let consultantId ← reqStrField fs "consultantId"
  let name ← optStrField fs "name"
  let email ← optStrField fs "email"
  let phone ← optStrField fs "phone"
  let skills ← optStrListField fs "skills"
  let roles ← optStrListField fs "roles"
  pure { consultantId, updates := { name, email, phone, skills, roles } }

/-- Parsed `bulkUpdateParser` output. -/
structure BulkUpdateArgs where
  consultantIds : List String
  changes : ConsultantUpdates
  deriving Repr, DecidableEq

/-- `bulkUpdateParser.parse(args)`. -/
def bulkUpdateParse (args : Jv) : Option BulkUpdateArgs := do
  let fs ← jvFields args
  let consultantIds ← reqStrListField fs "consultantIds"
  let name ← optStrField fs "name"
  let email ← optStrField fs "email"
  let phone ← optStrField fs "phone"
  let skills ← optStrListField fs "skills"
  let roles ← optStrListField fs "roles"
  pure { consultantIds, changes := { name, email, phone, skills, roles } }

/-- `projectDetailParser.parse(args)`. -/
def projectDetailParse (args : Jv) : Option String := do
  let fs ← jvFields args
  reqStrField fs "projectId"

/-- Parsed `assignConsultantParser` output. -/
structure AssignArgs where
  projectId : String
  consultantId : String
  role : String
  billable : Option Bool
  rate : Option Int
  deriving Repr, DecidableEq

/-- `assignConsultantParser.parse(args)`. -/
def assignConsultantParse (args : Jv) : Option AssignArgs := do
  let fs ← jvFields args
  let projectId ← reqStrField fs "projectId"
  let consultantId ← reqStrField fs "consultantId"
  let role ← reqStrField fs "role"
  let billable ← optBoolField fs "billable"
  let rate ← optNumField fs "rate"
  pure { projectId, consultantId, role, billable, rate }

/-- Parsed `bulkAssignParser` output. -/
structure BulkAssignArgs where
  projectId : String
  consultantIds : List String
  role : String
  billable : Option Bool
  rate : Option Int
  deriving Repr, DecidableEq

/-- `bulkAssignParser.parse(args)`. -/
def bulkAssignParse (args : Jv) : Option BulkAssignArgs := do
  let fs ← jvFields args
  let projectId ← reqStrField fs "projectId"
  let consultantIds ← reqStrListField fs "consultantIds"
  let role ← reqStrField fs "role"
  let billable ← optBoolField fs "billable"
  let rate ← optNumField fs "rate"
  pure { projectId, consultantIds, role, billable, rate }

/-- Parsed `removeAssignmentParser` output. -/
structure RemoveArgs where
  projectId : String
  consultantId : String
  deriving Repr, DecidableEq

/-- `removeAssignmentParser.parse(args)`. -/
def removeAssignmentParse (args : Jv) : Option RemoveArgs := do
  let fs ← jvFields args
  let projectId ← reqStrField fs "projectId"
  let consultantId ← reqStrField fs "consultantId"
  pure { projectId, consultantId }

/-- Does `args` satisfy the named registered tool's runtime schema?
(Unknown tool names impose no schema.) -/
def argsValid (name : String) (args : Jv) : Bool :=
  if name = "show-hr-dashboard" then (dashboardParse args).isSome
  else if name = "show-consultant-profile" then (profileParse args).isSome
  else if name = "search-consultants" then (searchParse args).isSome
  else if name = "show-bulk-editor" then (bulkEditorParse args).isSome
  else if name = "update-consultant" then (updateParse args).isSome
  else if name = "bulk-update-consultants" then (bulkUpdateParse args).isSome
  else if name = "show-project-details" then (projectDetailParse args).isSome
  else if name = "assign-consultant-to-project" then (assignConsultantParse args).isSome
  else if name = "bulk-assign-consultants" then (bulkAssignParse args).isSome
  else if name = "remove-assignment" then (removeAssignmentParse args).isSome
  else true

/-! ## The `call-tool` dispatcher

The response model keeps the fields the protocol contract speaks about:
the text blocks, the presence of `structuredContent`, the `isError`
flag (absent on success in the source, modelled as `false`), and the
optional `_meta` widget record.  The construction of the structured
payload itself is abstracted to the presence flag; stored-JSON
re-parsing is modelled exactly where its result reaches the summary
text or the control flow (the dashboard's billable-hours total, the
profile's skills list, the skill filters), with a parse failure as a
thrown runtime error. -/

/-- An MCP tool response, as far as the claims are concerned. -/
structure ToolResponse where
  content : List String
  hasStructured : Bool
  isError : Bool
  meta : Option WidgetMeta
  deriving Repr, DecidableEq

/-- An exception escaping the call-tool handler: a zod validation throw,
or a runtime throw (malformed stored JSON). -/
inductive CallError where
  | validation (toolName : String)
  | runtime (msg : String)
  deriving Repr, DecidableEq

/-- `JSON.parse(s || "[]")` as a string array (the stored `skills` shape). -/
def jsonParseStrList (s : String) : Option (List String) :=
  match jsonParse (if s = "" then "[]" else s) with
  | some (.arr items) => items.mapM jvAsStr
  | _ => none

/-- The `hours` field of one forecast entry. -/
def itemHours : Jv → Option Int
  | .obj fs => getField fs "hours" >>= jvAsNum
  | _ => none

/-- `JSON.parse(a.forecast || "[]").reduce((s, f) => s + f.hours, 0)`. -/
def forecastHours (forecast : String) : Option Int :=
  match jsonParse (if forecast = "" then "[]" else forecast) with
  | some (.arr items) => (items.mapM itemHours).map fun hs => hs.foldl (· + ·) 0
  | _ => none

/-- The dashboard's `totalBillableHours` reduction over all assignments:
non-billable rows contribute nothing, billable rows their forecast sum. -/
def totalBillableHours : List AssignmentEntity → Option Int
  | [] => some 0
  | a :: rest =>
    if a.billable then do
      let h ← forecastHours a.forecast
      let r ← totalBillableHours rest
      pure (h + r)
    else totalBillableHours rest

/-- Does a consultant hold a skill matching the query
(case-insensitive substring over the parsed skills array)? -/
def consultantHasSkill (skillQuery : String) (c : ConsultantEntity) : Option Bool :=
  (jsonParseStrList c.skills).map fun skills =>
    skills.any fun s => strHasSub (strToLower s) (strToLower skillQuery)

/-- `results.filter(...)` by skill; the predicate re-parses stored JSON
and its throw aborts the whole filter. -/
def filterBySkill (skillQuery : String) : List ConsultantEntity → Option (List ConsultantEntity)
  | [] => some []
  | c :: rest => do
    let keep ← consultantHasSkill skillQuery c
    let tail ← filterBySkill skillQuery rest
    pure (if keep then c :: tail else tail)

/-- `results.filter(c => c.name.toLowerCase().includes(q.toLowerCase()))`. -/
def filterByName (nameQuery : String) (cs : List ConsultantEntity) : List ConsultantEntity :=
  cs.filter fun c => strHasSub (strToLower c.name) (strToLower nameQuery)

/-- The `filterDescParts` hints of the dashboard handler, in source
order; a JS truthiness test guards each part, so empty strings add
nothing. -/
def dashboardFilterParts (f : DashboardArgs) : List String :=
  (match f.consultantName with
   | some cn => if cn = "" then [] else ["consultant: \"" ++ cn ++ "\""]
   | none => []) ++
  (match f.projectName with
   | some pn => if pn = "" then [] else ["project: \"" ++ pn ++ "\""]
   | none => []) ++
  (match f.skill with
   | some s => if s = "" then [] else ["skill: \"" ++ s ++ "\""]
   | none => []) ++
  (match f.role with
   | some r => if r = "" then [] else ["role: \"" ++ r ++ "\""]
   | none => []) ++
  (match f.billable with
   | some b => [if b then "billable only" else "non-billable only"]
   | none => [])

/-- The `show-hr-dashboard` handler. -/
def handleShowHrDashboard (reg : WidgetRegistry) (args : Jv) (st : Db) :
    Except CallError ToolResponse × Db :=
  match dashboardParse args with
  | none => (.error (.validation "show-hr-dashboard"), st)
  | some filters =>
    match totalBillableHours (getAllAssignments st) with
    | none => (.error (.runtime "invalid forecast JSON"), st)
    | some total =>
      let parts := dashboardFilterParts filters
      let filterDesc :=
        if parts.isEmpty then "" else " (filtered by " ++ joinSep ", " parts ++ ")"
      (.ok
        { content :=
            ["HR Dashboard: " ++ toString (getAllConsultants st).length ++
              " consultants, " ++ toString (getAllProjects st).length ++
              " projects, " ++ toString total ++ " billable hours forecasted." ++
              filterDesc]
          hasStructured := true
          isError := false
          meta := some (invocationMeta reg.dashboard) }, st)

/-- The `show-consultant-profile` handler. -/
def handleShowConsultantProfile (reg : WidgetRegistry) (args : Jv) (st : Db) :
    Except CallError ToolResponse × Db :=
  match profileParse args with
  | none => (.error (.validation "show-consultant-profile"), st)
  | some consultantId =>
    match getConsultantById st consultantId with
    | none =>
      (.ok
        { content := ["Consultant " ++ consultantId ++ " not found."]
          hasStructured := false
          isError := true
          meta := none }, st)
    | some c =>
      match jsonParseStrList c.skills with
      | none => (.error (.runtime "invalid skills JSON"), st)
      | some skills =>
        let assignments := getAssignmentsByConsultant st consultantId
        (.ok
          { content :=
              ["Profile for " ++ c.name ++ ": " ++ joinSep ", " skills ++ " | " ++
                toString assignments.length ++ " active assignment(s)."]
            hasStructured := true
            isError := false
            meta := some (invocationMeta reg.profile) }, st)

/-- The `search-consultants` handler. -/
def handleSearchConsultants (reg : WidgetRegistry) (args : Jv) (st : Db) :
    Except CallError ToolResponse × Db :=
  match searchParse args with
  | none => (.error (.validation "search-consultants"), st)
  | some q =>
    let afterSkill : Option (List ConsultantEntity) :=
      match q.skill with
      | some sk => if sk = "" then some (getAllConsultants st) else filterBySkill sk (getAllConsultants st)
      | none => some (getAllConsultants st)
    match afterSkill with
    | none => (.error (.runtime "invalid skills JSON"), st)
    | some results1 =>
      let results :=
        match q.name with
        | some nm => if nm = "" then results1 else filterByName nm results1
        | none => results1
      (.ok
        { content := ["Found " ++ toString results.length ++ " consultant(s) matching criteria."]
          hasStructured := true
          isError := false
          meta := some (invocationMeta reg.bulkEditor) }, st)

/-- The JS-truthy filter-description parts of `show-bulk-editor`. -/
def bulkEditorFilterParts (q : SearchArgs) : List String :=
  (match q.skill with
   | some s => if s = "" then [] else ["skill: \"" ++ s ++ "\""]
   | none => []) ++
  (match q.name with
   | some n => if n = "" then [] else ["name: \"" ++ n ++ "\""]
   | none => [])

/-- The `show-bulk-editor` handler. -/
def handleShowBulkEditor (reg : WidgetRegistry) (args : Jv) (st : Db) :
    Except CallError ToolResponse × Db :=
  match bulkEditorParse args with
  | none => (.error (.validation "show-bulk-editor"), st)
  | some q =>
    let afterSkill : Option (List ConsultantEntity) :=
      match q.skill with
      | some sk => if sk = "" then some (getAllConsultants st) else filterBySkill sk (getAllConsultants st)
      | none => some (getAllConsultants st)
    match afterSkill with
    | none => (.error (.runtime "invalid skills JSON"), st)
    | some results1 =>
      let consultants :=
        match q.name with
        | some nm => if nm = "" then results1 else filterByName nm results1
        | none => results1
      let filterDesc := joinSep ", " (bulkEditorFilterParts q)
      (.ok
        { content :=
            ["Bulk editor loaded with " ++ toString consultants.length ++
              " consultant record(s)" ++
              (if filterDesc = "" then "" else " (filtered by " ++ filterDesc ++ ")") ++ "."]
          hasStructured := true
          isError := false
          meta := some (invocationMeta reg.bulkEditor) }, st)

/-- The `update-consultant` handler. -/
def handleUpdateConsultant (args : Jv) (st : Db) :
    Except CallError ToolResponse × Db :=
  match updateParse args with
  | none => (.error (.validation "update-consultant"), st)
  | some parsed =>
    match updateConsultant st parsed.consultantId parsed.updates with
    | (none, st') =>
      (.ok
        { content := ["Consultant " ++ parsed.consultantId ++ " not found."]
          hasStructured := false
          isError := true
          meta := none }, st')
    | (some updated, st') =>
      (.ok
        { content :=
            ["Updated consultant " ++ updated.name ++ " (ID: " ++ parsed.consultantId ++ ")."]
          hasStructured := false
          isError := false
          meta := none }, st')

/-- The per-id loop of `bulk-update-consultants`: one result line per id,
in input order, threading the table state. -/
def bulkUpdateRun (changes : ConsultantUpdates) :
    List String → Db → List String × Db
  | [], st => ([], st)
  | id :: rest, st =>
    let (updated, st') := updateConsultant st id changes
    let line :=
      match updated with
      | some u => "✓ Updated " ++ u.name
      | none => "✗ Consultant " ++ id ++ " not found"
    let (lines, st'') := bulkUpdateRun changes rest st'
    (line :: lines, st'')

/-- The `bulk-update-consultants` handler. -/
def handleBulkUpdateConsultants (args : Jv) (st : Db) :
    Except CallError ToolResponse × Db :=
  match bulkUpdateParse args with
  | none => (.error (.validation "bulk-update-consultants"), st)
  | some parsed =>
    let (results, st') := bulkUpdateRun parsed.changes parsed.consultantIds st
    (.ok
      { content := ["Bulk update complete:\n" ++ joinSep "\n" results]
        hasStructured := false
        isError := false
        meta := none }, st')

/-- The `show-project-details` handler. -/
def handleShowProjectDetails (reg : WidgetRegistry) (args : Jv) (st : Db) :
    Except CallError ToolResponse × Db :=
  match projectDetailParse args with
  | none => (.error (.validation "show-project-details"), st)
  | some projectId =>
    match getProjectById st projectId with
    | none =>
      (.ok
        { content := ["Project " ++ projectId ++ " not found."]
          hasStructured := false
          isError := true
          meta := none }, st)
    | some project =>
      let assignments := getAssignmentsByProject st projectId
      (.ok
        { content :=
            ["Project \"" ++ project.name ++ "\" for " ++ project.clientName ++ ": " ++
              toString assignments.length ++ " assignment(s)."]
          hasStructured := true
          isError := false
          meta := some (invocationMeta reg.dashboard) }, st)

/-- The `assign-consultant-to-project` handler. -/
def handleAssignConsultant (args : Jv) (st : Db) :
    Except CallError ToolResponse × Db :=
  match assignConsultantParse args with
  | none => (.error (.validation "assign-consultant-to-project"), st)
  | some parsed =>
    match getProjectById st parsed.projectId with
    | none =>
      (.ok
        { content := ["Project " ++ parsed.projectId ++ " not found."]
          hasStructured := false
          isError := true
          meta := none }, st)
    | some project =>
      match getConsultantById st parsed.consultantId with
      | none =>
        (.ok
          { content := ["Consultant " ++ parsed.consultantId ++ " not found."]
            hasStructured := false
            isError := true
            meta := none }, st)
      | some consultant =>
        let (_, st') :=
          createAssignment st parsed.projectId parsed.consultantId parsed.role
            parsed.billable parsed.rate
        (.ok
          { content :=
              ["Assigned " ++ consultant.name ++ " to project \"" ++ project.name ++
                "\" as " ++ parsed.role ++
                (if parsed.billable = some false then " (non-billable)" else "") ++
                (match parsed.rate with
                 | some r => if r = 0 then "" else " at $" ++ toString r ++ "/hr"
                 | none => "") ++ "."]
            hasStructured := false
            isError := false
            meta := none }, st')

/-- The per-id loop of `bulk-assign-consultants`: a missing consultant
contributes a `✗` line and leaves the table untouched; a found one is
assigned and contributes a `✓` line. -/
def bulkAssignRun (projectId role : String) (billable : Option Bool) (rate : Option Int) :
    List String → Db → List String × Db
  | [], st => ([], st)
  | id :: rest, st =>
    match getConsultantById st id with
    | none =>
      let (lines, st') := bulkAssignRun projectId role billable rate rest st
      (("✗ Consultant " ++ id ++ " not found") :: lines, st')
    | some c =>
      let (_, st') := createAssignment st projectId id role billable rate
      let (lines, st'') := bulkAssignRun projectId role billable rate rest st'
      (("✓ Assigned " ++ c.name ++ " as " ++ role) :: lines, st'')

/-- The `bulk-assign-consultants` handler. -/
def handleBulkAssignConsultants (args : Jv) (st : Db) :
    Except CallError ToolResponse × Db :=
  match bulkAssignParse args with
  | none => (.error (.validation "bulk-assign-consultants"), st)
  | some parsed =>
    match getProjectById st parsed.projectId with
    | none =>
      (.ok
        { content := ["Project " ++ parsed.projectId ++ " not found."]
          hasStructured := false
          isError := true
          meta := none }, st)
    | some project =>
      let (results, st') :=
        bulkAssignRun parsed.projectId parsed.role parsed.billable parsed.rate
          parsed.consultantIds st
      (.ok
        { content :=
            ["Bulk assignment to \"" ++ project.name ++ "\" complete:\n" ++
              joinSep "\n" results]
          hasStructured := false
          isError := false
          meta := none }, st')

/-- The `remove-assignment` handler. -/
def handleRemoveAssignment (args : Jv) (st : Db) :
    Except CallError ToolResponse × Db :=
  match removeAssignmentParse args with
  | none => (.error (.validation "remove-assignment"), st)
  | some parsed =>
    match deleteAssignment st parsed.projectId parsed.consultantId with
    | (false, st') =>
      (.ok
        { content :=
            ["Assignment for consultant " ++ parsed.consultantId ++ " on project " ++
              parsed.projectId ++ " not found."]
          hasStructured := false
          isError := true
          meta := none }, st')
    | (true, st') =>
      (.ok
        { content :=
            ["Removed assignment: consultant " ++ parsed.consultantId ++
              " from project " ++ parsed.projectId ++ "."]
          hasStructured := false
          isError := false
          meta := none }, st')

/-- The `CallToolRequestSchema` handler: default the absent arguments to
the empty object, then dispatch by tool name; an unknown name yields a
normal response with `isError` set, never a throw. -/
def callTool (reg : WidgetRegistry) (name : String) (rawArgs : Option Jv) (st : Db) :
    Except CallError ToolResponse × Db :=
  let args := rawArgs.getD (.obj [])
  if name = "show-hr-dashboard" then handleShowHrDashboard reg args st
  else if name = "show-consultant-profile" then handleShowConsultantProfile reg args st
  else if name = "search-consultants" then handleSearchConsultants reg args st
  else if name = "show-bulk-editor" then handleShowBulkEditor reg args st
  else if name = "update-consultant" then handleUpdateConsultant args st
  else if name = "bulk-update-consultants" then handleBulkUpdateConsultants args st
  else if name = "show-project-details" then handleShowProjectDetails reg args st
  else if name = "assign-consultant-to-project" then handleAssignConsultant args st
  else if name = "bulk-assign-consultants" then handleBulkAssignConsultants args st
  else if name = "remove-assignment" then handleRemoveAssignment args st
  else
    (.ok
      { content := ["Unknown tool: " ++ name]
        hasStructured := false
        isError := true
        meta := none }, st)

/-! ## `read-resource` (`ReadResourceRequestSchema` handler) -/

/-- One entry of a read-resource `contents` list. -/
structure ResourceContents where
  uri : String
  mimeType : String
  text : String
  meta : WidgetMeta
  deriving Repr, DecidableEq

/-- A read-resource response: the contents plus the optional top-level
`_meta` error marker. -/
structure ReadResourceResult where
  contents : List ResourceContents
  metaError : Option String
  deriving Repr, DecidableEq

/-- `widgetsByUri.get(uri)`: the JS `Map` keeps the last binding for a
duplicated key, hence the reversed search. -/
def widgetsByUri (reg : WidgetRegistry) (uri : String) : Option HRWidget :=
  (getWidgets reg).reverse.find? fun w => w.templateUri = uri

/-- The `ReadResourceRequestSchema` handler: unknown uris produce an
empty-contents response with an error marker; known uris one entry with
the cached markup. -/
def readResource (reg : WidgetRegistry) (uri : String) : ReadResourceResult :=
  match widgetsByUri reg uri with
  | none =>
    { contents := []
      metaError := some ("Unknown resource: " ++ uri) }
  | some w =>
    { contents :=
        [{ uri := w.templateUri
           mimeType := MIME_TYPE
           text := w.html
           meta := descriptorMeta w }]
      metaError := none }

/-! ## Concrete fixtures used by the witnesses -/

/-- A one-consultant fixture row. -/
def sampleConsultant : ConsultantEntity :=
  { rowKey := "c1"
    name := "Avery Howard"
    email := "avery@example.com"
    phone := "555-0100"
    consultantPhotoUrl := ""
    location := ""
    skills := "[\"TypeScript\"]"
    certifications := "[]"
    roles := "[]" }

/-- A one-project fixture row. -/
def sampleProject : ProjectEntity :=
  { rowKey := "p1"
    name := "Contoso Website"
    description := ""
    clientName := "Contoso"
    clientContact := ""
    clientEmail := ""
    location := "" }

/-- A small fixture state. -/
def sampleDb : Db :=
  { consultants := [sampleConsultant]
    projects := [sampleProject]
    assignments := [] }

/-- The empty store. -/
def emptyDb : Db :=
  { consultants := []
    projects := []
    assignments := [] }

/-- The directory entries behind `sampleAssets`. -/
def sampleAssetFiles : List (String × String) :=
  [ ("hr-dashboard.html", "<html><head></head><body>dash</body></html>")
  , ("consultant-profile-a1b2.html", "<html><head></head><body>profA</body></html>")
  , ("consultant-profile-c3d4.html", "<html><head></head><body>profC</body></html>")
  , ("bulk-editor.html", "<html><head></head><body>bulk</body></html>")
  ]

/-- A fixture asset directory: two exact-name artifacts and one
content-hashed artifact for `consultant-profile`. -/
def sampleAssets : FsModel :=
  some sampleAssetFiles

/-- A concrete loaded registry (arbitrary cached markup strings). -/
def sampleRegistry : WidgetRegistry :=
  { dashboard :=
      { id := "hr-dashboard"
        title := "HR Dashboard"
        templateUri := "ui://widget/hr-dashboard.html"
        invoking := "Loading HR dashboard…"
        invoked := "Dashboard ready"
        html := "<html><head></head><body>dash</body></html>" }
    profile :=
      { id := "consultant-profile"
        title := "Consultant Profile"
        templateUri := "ui://widget/consultant-profile.html"
        invoking := "Loading consultant profile…"
        invoked := "Profile ready"
        html := "<html><head></head><body>prof</body></html>" }
    bulkEditor :=
      { id := "bulk-editor"
        title := "Bulk Editor"
        templateUri := "ui://widget/bulk-editor.html"
        invoking := "Opening bulk editor…"
        invoked := "Editor ready"
        html := "<html><head></head><body>bulk</body></html>" } }

/-- A fixture assignment row linking the sample project and consultant. -/
def sampleAssignment : AssignmentEntity :=
  { rowKey := "p1,c1"
    projectId := "p1"
    consultantId := "c1"
    role := "Developer"
    billable := true
    rate := 0
    forecast := "[]"
    delivered := "[]" }

/-- A fixture store holding only `sampleAssignment`. -/
def assignmentOnlyDb : Db :=
  { consultants := []
    projects := []
    assignments := [sampleAssignment] }

/-- The registry produced by loading `sampleAssets` for a localhost base
URL (dashboard and bulk-editor resolved by exact name, profile via the
lexicographically last hashed artifact). -/
def loadedSampleRegistry : WidgetRegistry :=
  { dashboard :=
      { id := "hr-dashboard"
        title := "HR Dashboard"
        templateUri := "ui://widget/hr-dashboard.html"
        invoking := "Loading HR dashboard…"
        invoked := "Dashboard ready"
        html := injectServerUrl "http://localhost:8000"
          "<html><head></head><body>dash</body></html>" }
    profile :=
      { id := "consultant-profile"
        title := "Consultant Profile"
        templateUri := "ui://widget/consultant-profile.html"
        invoking := "Loading consultant profile…"
        invoked := "Profile ready"
        html := injectServerUrl "http://localhost:8000"
          "<html><head></head><body>profC</body></html>" }
    bulkEditor :=
      { id := "bulk-editor"
        title := "Bulk Editor"
        templateUri := "ui://widget/bulk-editor.html"
        invoking := "Opening bulk editor…"
        invoked := "Editor ready"
        html := injectServerUrl "http://localhost:8000"
          "<html><head></head><body>bulk</body></html>" } }

/-- The update patch used in the C10 witness. -/
def adaOnlyChanges : ConsultantUpdates :=
  { name := some "Ada"
    email := none
    phone := none
    skills := none
    roles := none }

/-- The parsed bulk-assign arguments used in the C10 witness (missing
project). -/
def ghostAssignArgsNope : BulkAssignArgs :=
  { projectId := "nope"
    consultantIds := ["c1"]
    role := "Dev"
    billable := none
    rate := none }

/-- The parsed bulk-assign arguments used in the C10 witness (existing
project). -/
def ghostAssignArgsP1 : BulkAssignArgs :=
  { projectId := "p1"
    consultantIds := ["ghost", "c1"]
    role := "Dev"
    billable := none
    rate := none }

/-- The parsed bulk-update arguments used in the C10 witness. -/
def ghostUpdateArgs : BulkUpdateArgs :=
  { consultantIds := ["ghost", "c1"]
    changes := adaOnlyChanges }

/-! ## Supporting lemmas -/

theorem toNat_ofNat_valid (n : Nat) (h : n.isValidChar) : (Char.ofNat n).toNat = n := by
  simp [Char.ofNat, Char.ofNatAux, Char.toNat, h]
  simp [UInt32.toNat, UInt32.ofNatTruncate, UInt32.ofNat]

theorem toLower_slash {c : Char} (h : c.toLower = '/') : c = '/' := by
  unfold Char.toLower at h
  simp only [] at h
  by_cases hc : c.toNat ≥ 65 ∧ c.toNat ≤ 90
  · rw [if_pos hc] at h
    have hv : (c.toNat + 32).isValidChar := by
      constructor
      omega
    have h2 := congrArg Char.toNat h
    rw [toNat_ofNat_valid _ hv] at h2
    have h47 : ('/' : Char).toNat = 47 := by decide
    omega
  · rwa [if_neg hc] at h

theorem strStartsWith_self (s : String) : strStartsWith s s = true :=
  List.isPrefixOf_iff_prefix.mpr (List.prefix_refl _)

theorem urlHostname_no_slash {o h : String} (hh : urlHostname o = some h) :
    '/' ∉ h.data := by
  unfold urlHostname parseUrl at hh
  cases hsplit : splitFirstSub o.data [':', '/', '/'] with
  | none => rw [hsplit] at hh; simp at hh
  | some pr =>
    obtain ⟨scheme, rest⟩ := pr
    rw [hsplit] at hh
    cases scheme with
    | nil => simp at hh
    | cons c cs =>
      simp only [Option.map] at hh
      by_cases h1 : c.isAlpha ∧ cs.all isSchemeChar
      · rw [if_pos h1] at hh
        by_cases h2 : ((rest.takeWhile fun ch => ¬ isHostEnd ch).dropWhile fun ch => ch ≠ ':').drop 1 |>.all Char.isDigit
        · rw [if_pos h2] at hh
          simp only [Option.some.injEq] at hh
          intro hmem
          rw [← hh] at hmem
          simp only [String.data] at hmem
          rw [List.mem_map] at hmem
          obtain ⟨a, ha_mem, ha_low⟩ := hmem
          have ha2 : a ∈ rest.takeWhile fun ch => ¬ isHostEnd ch :=
            (List.takeWhile_sublist _).mem ha_mem
          have ha3 := List.mem_takeWhile_imp ha2
          have ha4 : a = '/' := toLower_slash ha_low
          rw [ha4] at ha3
          simp [isHostEnd] at ha3
        · rw [if_neg h2] at hh; simp at hh
      · rw [if_neg h1] at hh; simp at hh

theorem slash_mem_of_endsWith_scheme {entry : String} (h : strEndsWith entry "://" = true) :
    '/' ∈ entry.data ∧ '/' ∈ entry.data.drop 1 := by
  unfold strEndsWith at h
  have hsuf : [':', '/', '/'] <:+ entry.data := List.isSuffixOf_iff_suffix.mp h
  obtain ⟨pre, hpre⟩ := hsuf
  rw [← hpre]
  constructor
  · simp
  · cases pre with
    | nil => simp
    | cons a as => simp

theorem not_endsWith_of_no_slash {h entry : String} (hs : '/' ∈ entry.data)
    (hns : '/' ∉ h.data) : ¬ (strEndsWith h entry = true) := by
  intro hcon
  unfold strEndsWith at hcon
  obtain ⟨pre, hpre⟩ := List.isSuffixOf_iff_suffix.mp hcon
  apply hns
  rw [← hpre]
  exact List.mem_append_right _ hs

theorem entryAllows_eq_matcher (entry o : String) :
    entryAllows entry o = matcherAccepts (classifyEntry entry) o := by
  unfold entryAllows classifyEntry
  by_cases hEnds : strEndsWith entry "://" = true
  · by_cases hStarts : strStartsWith o entry = true
    · rw [if_pos ⟨hEnds, hStarts⟩, if_pos hEnds]
      simp [matcherAccepts, hStarts]
    · rw [if_neg (by tauto), if_pos hEnds]
      simp only [matcherAccepts]
      rw [if_neg (by tauto), if_neg (by tauto)]
      by_cases hDot : strStartsWith entry "." = true
      · rw [if_pos hDot]
        cases hhost : urlHostname o with
        | none => simp [hStarts]
        | some hostname =>
          have hno := urlHostname_no_slash hhost
          have ⟨hsl1, hsl2⟩ := slash_mem_of_endsWith_scheme hEnds
          have hne : ¬ (strEndsWith hostname entry = true) :=
            not_endsWith_of_no_slash hsl1 hno
          have hne2 : hostname ≠ (⟨entry.data.drop 1⟩ : String) := by
            intro hcon
            apply hno
            rw [hcon]
            exact hsl2
          rw [List.drop_one] at hne2
          simp [hne, hne2, hStarts, List.drop_one]
      · rw [if_neg hDot]
        have : o ≠ entry := by
          intro hcon
          rw [hcon] at hStarts
          exact hStarts (strStartsWith_self entry)
        simp [this, hStarts]
  · rw [if_neg (by tauto), if_neg hEnds]
    by_cases hLoc : entry ∈ localhostLiterals
    · rw [if_pos hLoc]
      simp only [matcherAccepts]
      have hDot : ¬ (strStartsWith entry "." = true) := by
        simp only [localhostLiterals, List.mem_cons, List.mem_singleton,
          List.not_mem_nil, or_false] at hLoc
        rcases hLoc with rfl | rfl | rfl | rfl <;> decide
      by_cases hStarts : strStartsWith o entry = true
      · simp only [localhostLiterals, List.mem_cons, List.mem_singleton,
          List.not_mem_nil, or_false] at hLoc
        rcases hLoc with rfl | rfl | rfl | rfl
        · rw [if_pos ⟨Or.inl rfl, hStarts⟩]
          simp [hStarts]
        · rw [if_pos ⟨Or.inr rfl, hStarts⟩]
          simp [hStarts]
        · rw [if_neg (by rintro ⟨hbad | hbad, _⟩ <;> exact absurd hbad (by decide)),
            if_pos ⟨Or.inl rfl, hStarts⟩]
          simp [hStarts]
        · rw [if_neg (by rintro ⟨hbad | hbad, _⟩ <;> exact absurd hbad (by decide)),
            if_pos ⟨Or.inr rfl, hStarts⟩]
          simp [hStarts]
      · rw [if_neg (by tauto), if_neg (by tauto), if_neg hDot]
        have : o ≠ entry := by
          intro hcon
          rw [hcon] at hStarts
          exact hStarts (strStartsWith_self entry)
        simp [this, hStarts]
    · have hl1 : entry ≠ "http://localhost" := by
        intro hcon; exact hLoc (by rw [hcon]; simp [localhostLiterals])
      have hl2 : entry ≠ "https://localhost" := by
        intro hcon; exact hLoc (by rw [hcon]; simp [localhostLiterals])
      have hl3 : entry ≠ "http://127.0.0.1" := by
        intro hcon; exact hLoc (by rw [hcon]; simp [localhostLiterals])
      have hl4 : entry ≠ "https://127.0.0.1" := by
        intro hcon; exact hLoc (by rw [hcon]; simp [localhostLiterals])
      rw [if_neg hLoc, if_neg (by tauto), if_neg (by tauto)]
      by_cases hDot : strStartsWith entry "." = true
      · rw [if_pos hDot, if_pos hDot]
        simp [matcherAccepts]
      · rw [if_neg hDot, if_neg hDot]
        simp [matcherAccepts]

theorem isOriginAllowed_eq_spec (entries : List String) (origin : Option String) :
    isOriginAllowed entries origin = specIsAllowed entries origin := by
  cases origin with
  | none => rfl
  | some o =>
    unfold isOriginAllowed specIsAllowed
    dsimp only
    by_cases h : o = "" ∨ o = "null"
    · rw [if_pos h, if_pos h]
    · rw [if_neg h, if_neg h]
      congr 1
      funext entry
      exact entryAllows_eq_matcher entry o

/-- C1: the origin check `isOriginAllowed` agrees with the spec's reference
matcher (rule 1 for missing or `"null"` origins, then per-entry typed
matchers for scheme-prefix, localhost-any-port, dot-suffix and exact
equality, deny when no entry matches) on every allow-list and origin;
in particular, with allow-list `[".chatgpt.com"]`, the origin
`https://chat.chatgpt.com` is allowed and `https://chatgpt.com.evil.net`
is denied. -/
theorem origin_check_equals_spec_matcher :
    (∀ (entries : List String) (origin : Option String),
      isOriginAllowed entries origin = specIsAllowed entries origin)
    ∧ isOriginAllowed [".chatgpt.com"] (some "https://chat.chatgpt.com") = true
    ∧ isOriginAllowed [".chatgpt.com"] (some "https://chatgpt.com.evil.net") = false :=
  ⟨isOriginAllowed_eq_spec, by decide, by decide⟩

/-- C9: the localhost allow rule is a bare string-prefix test — with the
default (static) allow-list, `http://localhost.attacker.example` is
allowed although its hostname is `localhost.attacker.example`, not
`localhost`. -/
theorem localhost_prefix_allows_attacker_domain :
    isOriginAllowed STATIC_ALLOWED_ORIGINS (some "http://localhost.attacker.example") = true
    ∧ urlHostname "http://localhost.attacker.example" = some "localhost.attacker.example"
    ∧ "localhost.attacker.example" ≠ "localhost" := by
  decide

/-- C8 counterexample: a malformed URL in the override list is NOT
skipped — `::bad::` does not parse as a URL, yet it contributes an
entry to the allow-list built from `ADDITIONAL_ALLOWED_ORIGINS`
`"::bad::"`. -/
theorem malformed_override_contributes_entry :
    parseUrl "::bad::" = none
    ∧ "::bad::" ∈ buildAllowedOrigins none (some "::bad::") := by
  decide

/-- C8 (amended): building the allow-list never fails; a malformed
public base URL is silently skipped (contributes nothing), a
well-formed one contributes exactly its origin plus a dot-wildcard for
its hostname, and override-list items are trimmed and added verbatim
without URL validation (only empty items are dropped). -/
theorem build_allowed_origins_total_and_skips :
    (∀ (extra : Option String) (bad : String), parseUrl bad = none →
      buildAllowedOrigins (some bad) extra = buildAllowedOrigins none extra)
    ∧ (∀ (extra : Option String) (base : String) (u : UrlParts), parseUrl base = some u →
      buildAllowedOrigins (some base) extra =
        STATIC_ALLOWED_ORIGINS ++ ([urlOrigin u, "." ++ u.hostname] ++
          (match extra with
           | none => []
           | some e => extraOriginItems e)))
    ∧ (∀ (serverBase : Option String) (e item : String), item ∈ extraOriginItems e →
      item ∈ buildAllowedOrigins serverBase (some e)) := by
  refine ⟨?_, ?_, ?_⟩
  · intro extra bad hbad
    unfold buildAllowedOrigins
    dsimp only
    rw [hbad]
  · intro extra base u hu
    unfold buildAllowedOrigins
    dsimp only
    rw [hu]
    cases extra <;> simp
  · intro serverBase e item hmem
    unfold buildAllowedOrigins
    dsimp only
    cases serverBase <;> simp [hmem]

/-- Witness for the amended C8 theorem at concrete inputs. -/
theorem build_allowed_origins_total_and_skips_witness :
    buildAllowedOrigins (some "::bad::") none = buildAllowedOrigins none none
    ∧ buildAllowedOrigins (some "https://tunnel.example.dev/base") none =
        STATIC_ALLOWED_ORIGINS ++ (["https://tunnel.example.dev", ".tunnel.example.dev"] ++ [])
    ∧ "x.example" ∈ buildAllowedOrigins none (some " x.example , ") := by
  refine ⟨?_, ?_, ?_⟩
  · exact build_allowed_origins_total_and_skips.1 none "::bad::" (by decide)
  · exact (build_allowed_origins_total_and_skips.2.1 none "https://tunnel.example.dev/base"
      ⟨"https", "tunnel.example.dev", ""⟩ (by decide)).trans (by decide)
  · exact build_allowed_origins_total_and_skips.2.2 none " x.example , " "x.example" (by decide)

theorem charListLe_cons_iff {a b : Char} {as bs : List Char} :
    charListLe (a :: as) (b :: bs) = true ↔ a < b ∨ (a = b ∧ charListLe as bs = true) := by
  by_cases h1 : a < b
  · simp [charListLe, h1]
  · by_cases h2 : a = b
    · simp [charListLe, h1, h2]
    · simp [charListLe, h1, h2]

theorem charListLe_refl (l : List Char) : charListLe l l = true := by
  induction l with
  | nil => rfl
  | cons a as ih => simp [charListLe, ih]

theorem charListLe_total (l₁ l₂ : List Char) :
    charListLe l₁ l₂ = true ∨ charListLe l₂ l₁ = true := by
  induction l₁ generalizing l₂ with
  | nil => left; rfl
  | cons a as ih =>
    cases l₂ with
    | nil => right; rfl
    | cons b bs =>
      rcases lt_trichotomy a b with h | h | h
      · left; exact charListLe_cons_iff.mpr (Or.inl h)
      · subst h
        rcases ih bs with h2 | h2
        · left; exact charListLe_cons_iff.mpr (Or.inr ⟨rfl, h2⟩)
        · right; exact charListLe_cons_iff.mpr (Or.inr ⟨rfl, h2⟩)
      · right; exact charListLe_cons_iff.mpr (Or.inl h)

theorem charListLe_trans {l₁ l₂ l₃ : List Char}
    (h1 : charListLe l₁ l₂ = true) (h2 : charListLe l₂ l₃ = true) :
    charListLe l₁ l₃ = true := by
  induction l₁ generalizing l₂ l₃ with
  | nil => rfl
  | cons a as ih =>
    cases l₂ with
    | nil => simp [charListLe] at h1
    | cons b bs =>
      cases l₃ with
      | nil => simp [charListLe] at h2
      | cons c cs =>
        rcases charListLe_cons_iff.mp h1 with hab | ⟨hab, hr1⟩ <;>
          rcases charListLe_cons_iff.mp h2 with hbc | ⟨hbc, hr2⟩
        · exact charListLe_cons_iff.mpr (Or.inl (lt_trans hab hbc))
        · exact charListLe_cons_iff.mpr (Or.inl (hbc ▸ hab))
        · exact charListLe_cons_iff.mpr (Or.inl (hab ▸ hbc))
        · exact charListLe_cons_iff.mpr (Or.inr ⟨hab.trans hbc, ih hr1 hr2⟩)

theorem charListLe_antisymm {l₁ l₂ : List Char}
    (h1 : charListLe l₁ l₂ = true) (h2 : charListLe l₂ l₁ = true) : l₁ = l₂ := by
  induction l₁ generalizing l₂ with
  | nil =>
    cases l₂ with
    | nil => rfl
    | cons b bs => simp [charListLe] at h2
  | cons a as ih =>
    cases l₂ with
    | nil => simp [charListLe] at h1
    | cons b bs =>
      rcases charListLe_cons_iff.mp h1 with hab | ⟨hab, hr1⟩ <;>
        rcases charListLe_cons_iff.mp h2 with hba | ⟨hba, hr2⟩
      · exact absurd hba (lt_asymm hab)
      · exact absurd (hba ▸ hab) (lt_irrefl b)
      · exact absurd (hab ▸ hba) (lt_irrefl b)
      · rw [hab, ih hr1 hr2]

theorem strLe_refl (s : String) : strLe s s = true := charListLe_refl _

theorem strLe_antisymm {a b : String} (h1 : strLe a b = true) (h2 : strLe b a = true) :
    a = b := by
  have h := charListLe_antisymm h1 h2
  cases a; cases b; exact congrArg String.mk h

theorem sorted_getLast?_max {s : List String}
    (hsorted : s.Sorted fun a b => strLe a b = true)
    {c : String} (hc : c ∈ s) (hmax : ∀ x ∈ s, strLe x c = true) :
    s.getLast? = some c := by
  induction s with
  | nil => cases hc
  | cons a t ih =>
    rw [List.sorted_cons] at hsorted
    cases t with
    | nil =>
      simp only [List.mem_singleton] at hc
      subst hc
      rfl
    | cons b u =>
      rw [List.getLast?_cons_cons]
      have hbt : b ∈ a :: b :: u := by simp
      have hc' : c ∈ b :: u := by
        rcases List.mem_cons.mp hc with rfl | h
        · have h1 : strLe c b = true := hsorted.1 b (by simp)
          have h2 : strLe b c = true := hmax b hbt
          rw [strLe_antisymm h2 h1]
          simp
        · exact h
      exact ih hsorted.2 hc' fun x hx => hmax x (List.mem_cons_of_mem a hx)

theorem sortedLast_eq_max {l : List String} {c : String} (hc : c ∈ l)
    (hmax : ∀ x ∈ l, strLe x c = true) : sortedLast l = some c := by
  unfold sortedLast
  have hperm := List.perm_insertionSort (fun a b => strLe a b = true) l
  have hsorted := @List.sorted_insertionSort String (fun a b => strLe a b = true) _
    ⟨fun a b => charListLe_total a.data b.data⟩
    ⟨fun _ _ _ h1 h2 => charListLe_trans h1 h2⟩ l
  exact sorted_getLast?_max hsorted (hperm.mem_iff.mpr hc)
    fun x hx => hmax x (hperm.mem_iff.mp hx)

/-- C4: `call-tool` with a name outside the catalog returns a normal
response with `isError = true` and summary `Unknown tool: {name}`,
with the store untouched — never a thrown error. -/
theorem unknown_tool_reported_not_thrown (reg : WidgetRegistry) (name : String)
    (rawArgs : Option Jv) (st : Db) (h : name ∉ toolNames) :
    callTool reg name rawArgs st =
      (.ok
        { content := ["Unknown tool: " ++ name]
          hasStructured := false
          isError := true
          meta := none }, st) := by
  have h' : name ∉ ["show-hr-dashboard", "show-consultant-profile", "search-consultants",
      "show-bulk-editor", "update-consultant", "bulk-update-consultants",
      "show-project-details", "assign-consultant-to-project", "bulk-assign-consultants",
      "remove-assignment"] := by
    intro hc
    exact h (by simpa [toolNames, tools] using hc)
  simp only [List.mem_cons, List.not_mem_nil, or_false, not_or] at h'
  obtain ⟨h1, h2, h3, h4, h5, h6, h7, h8, h9, h10⟩ := h'
  unfold callTool
  rw [if_neg h1, if_neg h2, if_neg h3, if_neg h4, if_neg h5, if_neg h6, if_neg h7,
    if_neg h8, if_neg h9, if_neg h10]

/-- Witness for C4 at the concrete unregistered name `greet`. -/
theorem unknown_tool_reported_not_thrown_witness :
    callTool sampleRegistry "greet" none emptyDb =
      (.ok
        { content := ["Unknown tool: greet"]
          hasStructured := false
          isError := true
          meta := none }, emptyDb) :=
  unknown_tool_reported_not_thrown sampleRegistry "greet" none emptyDb (by decide)

theorem handleShowHrDashboard_validation (reg : WidgetRegistry) (args : Jv) (st : Db)
    (h : dashboardParse args = none) :
    handleShowHrDashboard reg args st = (.error (.validation "show-hr-dashboard"), st) := by
  unfold handleShowHrDashboard
  rw [h]

theorem handleShowHrDashboard_not_validation (reg : WidgetRegistry) (args : Jv) (st : Db)
    (tn : String) (h : (dashboardParse args).isSome = true) :
    (handleShowHrDashboard reg args st).1 ≠ .error (.validation tn) := by
  unfold handleShowHrDashboard
  obtain ⟨p, hp⟩ := Option.isSome_iff_exists.mp h
  rw [hp]
  cases htot : totalBillableHours (getAllAssignments st) <;> simp

theorem handleShowHrDashboard_ok (reg : WidgetRegistry) (args : Jv) (st : Db)
    (resp : ToolResponse) (st' : Db)
    (h : handleShowHrDashboard reg args st = (.ok resp, st')) :
    resp.isError = false ∧ resp.meta = some (invocationMeta reg.dashboard) := by
  unfold handleShowHrDashboard at h
  cases hp : dashboardParse args with
  | none => rw [hp] at h; simp at h
  | some p =>
    rw [hp] at h
    cases htot : totalBillableHours (getAllAssignments st) with
    | none => rw [htot] at h; simp at h
    | some t =>
      rw [htot] at h
      simp only [Prod.mk.injEq, Except.ok.injEq] at h
      obtain ⟨hresp, _⟩ := h
      rw [← hresp]
      exact ⟨rfl, rfl⟩

theorem handleShowConsultantProfile_validation (reg : WidgetRegistry) (args : Jv) (st : Db)
    (h : profileParse args = none) :
    handleShowConsultantProfile reg args st =
      (.error (.validation "show-consultant-profile"), st) := by
  unfold handleShowConsultantProfile
  rw [h]

theorem handleShowConsultantProfile_not_validation (reg : WidgetRegistry) (args : Jv)
    (st : Db) (tn : String) (h : (profileParse args).isSome = true) :
    (handleShowConsultantProfile reg args st).1 ≠ .error (.validation tn) := by
  unfold handleShowConsultantProfile
  obtain ⟨p, hp⟩ := Option.isSome_iff_exists.mp h
  rw [hp]
  dsimp only
  cases hc : getConsultantById st p with
  | none => simp
  | some c => cases hs : jsonParseStrList c.skills <;> simp [hs]

theorem handleShowConsultantProfile_ok (reg : WidgetRegistry) (args : Jv) (st : Db)
    (resp : ToolResponse) (st' : Db)
    (h : handleShowConsultantProfile reg args st = (.ok resp, st'))
    (he : resp.isError = false) :
    resp.meta = some (invocationMeta reg.profile) := by
  unfold handleShowConsultantProfile at h
  cases hp : profileParse args with
  | none => rw [hp] at h; simp at h
  | some p =>
    rw [hp] at h
    dsimp only at h
    cases hc : getConsultantById st p with
    | none =>
      simp only [hc, Prod.mk.injEq, Except.ok.injEq] at h
      obtain ⟨hresp, _⟩ := h
      rw [← hresp] at he
      simp at he
    | some c =>
      simp only [hc] at h
      cases hs : jsonParseStrList c.skills with
      | none => simp only [hs] at h; simp at h
      | some skills =>
        simp only [hs, Prod.mk.injEq, Except.ok.injEq] at h
        obtain ⟨hresp, _⟩ := h
        rw [← hresp]

theorem handleSearchConsultants_validation (reg : WidgetRegistry) (args : Jv) (st : Db)
    (h : searchParse args = none) :
    handleSearchConsultants reg args st = (.error (.validation "search-consultants"), st) := by
  unfold handleSearchConsultants
  rw [h]

theorem handleSearchConsultants_not_validation (reg : WidgetRegistry) (args : Jv) (st : Db)
    (tn : String) (h : (searchParse args).isSome = true) :
    (handleSearchConsultants reg args st).1 ≠ .error (.validation tn) := by
  unfold handleSearchConsultants
  obtain ⟨p, hp⟩ := Option.isSome_iff_exists.mp h
  rw [hp]
  dsimp only
  cases hf : (match p.skill with
    | some sk => if sk = "" then some (getAllConsultants st) else filterBySkill sk (getAllConsultants st)
    | none => some (getAllConsultants st)) <;> simp

theorem handleSearchConsultants_ok (reg : WidgetRegistry) (args : Jv) (st : Db)
    (resp : ToolResponse) (st' : Db)
    (h : handleSearchConsultants reg args st = (.ok resp, st')) :
    resp.isError = false ∧ resp.meta = some (invocationMeta reg.bulkEditor) := by
  unfold handleSearchConsultants at h
  cases hp : searchParse args with
  | none => rw [hp] at h; simp at h
  | some p =>
    rw [hp] at h
    dsimp only at h
    cases hf : (match p.skill with
      | some sk => if sk = "" then some (getAllConsultants st) else filterBySkill sk (getAllConsultants st)
      | none => some (getAllConsultants st)) with
    | none => simp only [hf] at h; simp at h
    | some results1 =>
      simp only [hf, Prod.mk.injEq, Except.ok.injEq] at h
      obtain ⟨hresp, _⟩ := h
      rw [← hresp]
      exact ⟨rfl, rfl⟩

theorem handleShowBulkEditor_validation (reg : WidgetRegistry) (args : Jv) (st : Db)
    (h : bulkEditorParse args = none) :
    handleShowBulkEditor reg args st = (.error (.validation "show-bulk-editor"), st) := by
  unfold handleShowBulkEditor
  rw [h]

theorem handleShowBulkEditor_not_validation (reg : WidgetRegistry) (args : Jv) (st : Db)
    (tn : String) (h : (bulkEditorParse args).isSome = true) :
    (handleShowBulkEditor reg args st).1 ≠ .error (.validation tn) := by
  unfold handleShowBulkEditor
  obtain ⟨p, hp⟩ := Option.isSome_iff_exists.mp h
  rw [hp]
  dsimp only
  cases hf : (match p.skill with
    | some sk => if sk = "" then some (getAllConsultants st) else filterBySkill sk (getAllConsultants st)
    | none => some (getAllConsultants st)) <;> simp

theorem handleShowBulkEditor_ok (reg : WidgetRegistry) (args : Jv) (st : Db)
    (resp : ToolResponse) (st' : Db)
    (h : handleShowBulkEditor reg args st = (.ok resp, st')) :
    resp.isError = false ∧ resp.meta = some (invocationMeta reg.bulkEditor) := by
  unfold handleShowBulkEditor at h
  cases hp : bulkEditorParse args with
  | none => rw [hp] at h; simp at h
  | some p =>
    rw [hp] at h
    dsimp only at h
    cases hf : (match p.skill with
      | some sk => if sk = "" then some (getAllConsultants st) else filterBySkill sk (getAllConsultants st)
      | none => some (getAllConsultants st)) with
    | none => simp only [hf] at h; simp at h
    | some results1 =>
      simp only [hf, Prod.mk.injEq, Except.ok.injEq] at h
      obtain ⟨hresp, _⟩ := h
      rw [← hresp]
      exact ⟨rfl, rfl⟩

theorem handleUpdateConsultant_validation (args : Jv) (st : Db)
    (h : updateParse args = none) :
    handleUpdateConsultant args st = (.error (.validation "update-consultant"), st) := by
  unfold handleUpdateConsultant
  rw [h]

theorem handleUpdateConsultant_not_validation (args : Jv) (st : Db) (tn : String)
    (h : (updateParse args).isSome = true) :
    (handleUpdateConsultant args st).1 ≠ .error (.validation tn) := by
  unfold handleUpdateConsultant
  obtain ⟨p, hp⟩ := Option.isSome_iff_exists.mp h
  rw [hp]
  dsimp only
  rcases hu : updateConsultant st p.consultantId p.updates with ⟨uOpt, st2⟩
  cases uOpt <;> simp

theorem handleUpdateConsultant_ok (args : Jv) (st : Db) (resp : ToolResponse) (st' : Db)
    (h : handleUpdateConsultant args st = (.ok resp, st')) :
    resp.meta = none := by
  unfold handleUpdateConsultant at h
  cases hp : updateParse args with
  | none => rw [hp] at h; simp at h
  | some p =>
    rw [hp] at h
    dsimp only at h
    rcases hu : updateConsultant st p.consultantId p.updates with ⟨uOpt, st2⟩
    cases uOpt <;> simp only [hu, Prod.mk.injEq, Except.ok.injEq] at h <;>
      obtain ⟨hresp, _⟩ := h <;> rw [← hresp]

theorem handleBulkUpdateConsultants_validation (args : Jv) (st : Db)
    (h : bulkUpdateParse args = none) :
    handleBulkUpdateConsultants args st =
      (.error (.validation "bulk-update-consultants"), st) := by
  unfold handleBulkUpdateConsultants
  rw [h]

theorem handleBulkUpdateConsultants_not_validation (args : Jv) (st : Db) (tn : String)
    (h : (bulkUpdateParse args).isSome = true) :
    (handleBulkUpdateConsultants args st).1 ≠ .error (.validation tn) := by
  unfold handleBulkUpdateConsultants
  obtain ⟨p, hp⟩ := Option.isSome_iff_exists.mp h
  rw [hp]
  dsimp only
  rcases hr : bulkUpdateRun p.changes p.consultantIds st with ⟨results, st2⟩
  simp

theorem handleBulkUpdateConsultants_ok (args : Jv) (st : Db) (resp : ToolResponse)
    (st' : Db) (h : handleBulkUpdateConsultants args st = (.ok resp, st')) :
    resp.meta = none := by
  unfold handleBulkUpdateConsultants at h
  cases hp : bulkUpdateParse args with
  | none => rw [hp] at h; simp at h
  | some p =>
    rw [hp] at h
    dsimp only at h
    rcases hr : bulkUpdateRun p.changes p.consultantIds st with ⟨results, st2⟩
    simp only [hr, Prod.mk.injEq, Except.ok.injEq] at h
    obtain ⟨hresp, _⟩ := h
    rw [← hresp]

theorem handleShowProjectDetails_validation (reg : WidgetRegistry) (args : Jv) (st : Db)
    (h : projectDetailParse args = none) :
    handleShowProjectDetails reg args st =
      (.error (.validation "show-project-details"), st) := by
  unfold handleShowProjectDetails
  rw [h]

theorem handleShowProjectDetails_not_validation (reg : WidgetRegistry) (args : Jv)
    (st : Db) (tn : String) (h : (projectDetailParse args).isSome = true) :
    (handleShowProjectDetails reg args st).1 ≠ .error (.validation tn) := by
  unfold handleShowProjectDetails
  obtain ⟨p, hp⟩ := Option.isSome_iff_exists.mp h
  rw [hp]
  dsimp only
  cases hpr : getProjectById st p <;> simp

theorem handleShowProjectDetails_ok (reg : WidgetRegistry) (args : Jv) (st : Db)
    (resp : ToolResponse) (st' : Db)
    (h : handleShowProjectDetails reg args st = (.ok resp, st'))
    (he : resp.isError = false) :
    resp.meta = some (invocationMeta reg.dashboard) := by
  unfold handleShowProjectDetails at h
  cases hp : projectDetailParse args with
  | none => rw [hp] at h; simp at h
  | some p =>
    rw [hp] at h
    dsimp only at h
    cases hpr : getProjectById st p with
    | none =>
      simp only [hpr, Prod.mk.injEq, Except.ok.injEq] at h
      obtain ⟨hresp, _⟩ := h
      rw [← hresp] at he
      simp at he
    | some project =>
      simp only [hpr, Prod.mk.injEq, Except.ok.injEq] at h
      obtain ⟨hresp, _⟩ := h
      rw [← hresp]

theorem handleAssignConsultant_validation (args : Jv) (st : Db)
    (h : assignConsultantParse args = none) :
    handleAssignConsultant args st =
      (.error (.validation "assign-consultant-to-project"), st) := by
  unfold handleAssignConsultant
  rw [h]

theorem handleAssignConsultant_not_validation (args : Jv) (st : Db) (tn : String)
    (h : (assignConsultantParse args).isSome = true) :
    (handleAssignConsultant args st).1 ≠ .error (.validation tn) := by
  unfold handleAssignConsultant
  obtain ⟨p, hp⟩ := Option.isSome_iff_exists.mp h
  rw [hp]
  dsimp only
  cases hpr : getProjectById st p.projectId with
  | none => simp
  | some project =>
    cases hc : getConsultantById st p.consultantId <;> simp

theorem handleAssignConsultant_ok (args : Jv) (st : Db) (resp : ToolResponse) (st' : Db)
    (h : handleAssignConsultant args st = (.ok resp, st')) :
    resp.meta = none := by
  unfold handleAssignConsultant at h
  cases hp : assignConsultantParse args with
  | none => rw [hp] at h; simp at h
  | some p =>
    rw [hp] at h
    dsimp only at h
    cases hpr : getProjectById st p.projectId with
    | none =>
      simp only [hpr, Prod.mk.injEq, Except.ok.injEq] at h
      obtain ⟨hresp, _⟩ := h
      rw [← hresp]
    | some project =>
      simp only [hpr] at h
      cases hc : getConsultantById st p.consultantId with
      | none =>
        simp only [hc, Prod.mk.injEq, Except.ok.injEq] at h
        obtain ⟨hresp, _⟩ := h
        rw [← hresp]
      | some consultant =>
        simp only [hc, Prod.mk.injEq, Except.ok.injEq] at h
        obtain ⟨hresp, _⟩ := h
        rw [← hresp]

theorem handleBulkAssignConsultants_validation (args : Jv) (st : Db)
    (h : bulkAssignParse args = none) :
    handleBulkAssignConsultants args st =
      (.error (.validation "bulk-assign-consultants"), st) := by
  unfold handleBulkAssignConsultants
  rw [h]

theorem handleBulkAssignConsultants_not_validation (args : Jv) (st : Db) (tn : String)
    (h : (bulkAssignParse args).isSome = true) :
    (handleBulkAssignConsultants args st).1 ≠ .error (.validation tn) := by
  unfold handleBulkAssignConsultants
  obtain ⟨p, hp⟩ := Option.isSome_iff_exists.mp h
  rw [hp]
  dsimp only
  cases hpr : getProjectById st p.projectId with
  | none => simp
  | some project =>
    rcases hr : bulkAssignRun p.projectId p.role p.billable p.rate p.consultantIds st with
      ⟨results, st2⟩
    simp

theorem handleBulkAssignConsultants_ok (args : Jv) (st : Db) (resp : ToolResponse)
    (st' : Db) (h : handleBulkAssignConsultants args st = (.ok resp, st')) :
    resp.meta = none := by
  unfold handleBulkAssignConsultants at h
  cases hp : bulkAssignParse args with
  | none => rw [hp] at h; simp at h
  | some p =>
    rw [hp] at h
    dsimp only at h
    cases hpr : getProjectById st p.projectId with
    | none =>
      simp only [hpr, Prod.mk.injEq, Except.ok.injEq] at h
      obtain ⟨hresp, _⟩ := h
      rw [← hresp]
    | some project =>
      simp only [hpr] at h
      rcases hr : bulkAssignRun p.projectId p.role p.billable p.rate p.consultantIds st with
        ⟨results, st2⟩
      simp only [hr, Prod.mk.injEq, Except.ok.injEq] at h
      obtain ⟨hresp, _⟩ := h
      rw [← hresp]

theorem handleRemoveAssignment_validation (args : Jv) (st : Db)
    (h : removeAssignmentParse args = none) :
    handleRemoveAssignment args st = (.error (.validation "remove-assignment"), st) := by
  unfold handleRemoveAssignment
  rw [h]

theorem handleRemoveAssignment_not_validation (args : Jv) (st : Db) (tn : String)
    (h : (removeAssignmentParse args).isSome = true) :
    (handleRemoveAssignment args st).1 ≠ .error (.validation tn) := by
  unfold handleRemoveAssignment
  obtain ⟨p, hp⟩ := Option.isSome_iff_exists.mp h
  rw [hp]
  dsimp only
  rcases hd : deleteAssignment st p.projectId p.consultantId with ⟨ok, st2⟩
  cases ok <;> simp

theorem handleRemoveAssignment_ok (args : Jv) (st : Db) (resp : ToolResponse) (st' : Db)
    (h : handleRemoveAssignment args st = (.ok resp, st')) :
    resp.meta = none := by
  unfold handleRemoveAssignment at h
  cases hp : removeAssignmentParse args with
  | none => rw [hp] at h; simp at h
  | some p =>
    rw [hp] at h
    dsimp only at h
    rcases hd : deleteAssignment st p.projectId p.consultantId with ⟨ok, st2⟩
    cases ok <;> simp only [hd, Prod.mk.injEq, Except.ok.injEq] at h <;>
      obtain ⟨hresp, _⟩ := h <;> rw [← hresp]

theorem callTool_dash_eq (reg : WidgetRegistry) (rawArgs : Option Jv) (st : Db) :
    callTool reg "show-hr-dashboard" rawArgs st =
      handleShowHrDashboard reg (rawArgs.getD (.obj [])) st := by
  unfold callTool
  rw [if_pos rfl]

theorem callTool_profile_eq (reg : WidgetRegistry) (rawArgs : Option Jv) (st : Db) :
    callTool reg "show-consultant-profile" rawArgs st =
      handleShowConsultantProfile reg (rawArgs.getD (.obj [])) st := by
  unfold callTool
  rw [if_neg (by decide), if_pos rfl]

theorem callTool_search_eq (reg : WidgetRegistry) (rawArgs : Option Jv) (st : Db) :
    callTool reg "search-consultants" rawArgs st =
      handleSearchConsultants reg (rawArgs.getD (.obj [])) st := by
  unfold callTool
  rw [if_neg (by decide), if_neg (by decide), if_pos rfl]

theorem callTool_bulkEditor_eq (reg : WidgetRegistry) (rawArgs : Option Jv) (st : Db) :
    callTool reg "show-bulk-editor" rawArgs st =
      handleShowBulkEditor reg (rawArgs.getD (.obj [])) st := by
  unfold callTool
  rw [if_neg (by decide), if_neg (by decide), if_neg (by decide), if_pos rfl]

theorem callTool_update_eq (reg : WidgetRegistry) (rawArgs : Option Jv) (st : Db) :
    callTool reg "update-consultant" rawArgs st =
      handleUpdateConsultant (rawArgs.getD (.obj [])) st := by
  unfold callTool
  rw [if_neg (by decide), if_neg (by decide), if_neg (by decide), if_neg (by decide),
    if_pos rfl]

theorem callTool_bulkUpdate_eq (reg : WidgetRegistry) (rawArgs : Option Jv) (st : Db) :
    callTool reg "bulk-update-consultants" rawArgs st =
      handleBulkUpdateConsultants (rawArgs.getD (.obj [])) st := by
  unfold callTool
  rw [if_neg (by decide), if_neg (by decide), if_neg (by decide), if_neg (by decide),
    if_neg (by decide), if_pos rfl]

theorem callTool_projectDetails_eq (reg : WidgetRegistry) (rawArgs : Option Jv) (st : Db) :
    callTool reg "show-project-details" rawArgs st =
      handleShowProjectDetails reg (rawArgs.getD (.obj [])) st := by
  unfold callTool
  rw [if_neg (by decide), if_neg (by decide), if_neg (by decide), if_neg (by decide),
    if_neg (by decide), if_neg (by decide), if_pos rfl]

theorem callTool_assign_eq (reg : WidgetRegistry) (rawArgs : Option Jv) (st : Db) :
    callTool reg "assign-consultant-to-project" rawArgs st =
      handleAssignConsultant (rawArgs.getD (.obj [])) st := by
  unfold callTool
  rw [if_neg (by decide), if_neg (by decide), if_neg (by decide), if_neg (by decide),
    if_neg (by decide), if_neg (by decide), if_neg (by decide), if_pos rfl]

theorem callTool_bulkAssign_eq (reg : WidgetRegistry) (rawArgs : Option Jv) (st : Db) :
    callTool reg "bulk-assign-consultants" rawArgs st =
      handleBulkAssignConsultants (rawArgs.getD (.obj [])) st := by
  unfold callTool
  rw [if_neg (by decide), if_neg (by decide), if_neg (by decide), if_neg (by decide),
    if_neg (by decide), if_neg (by decide), if_neg (by decide), if_neg (by decide),
    if_pos rfl]

theorem callTool_remove_eq (reg : WidgetRegistry) (rawArgs : Option Jv) (st : Db) :
    callTool reg "remove-assignment" rawArgs st =
      handleRemoveAssignment (rawArgs.getD (.obj [])) st := by
  unfold callTool
  rw [if_neg (by decide), if_neg (by decide), if_neg (by decide), if_neg (by decide),
    if_neg (by decide), if_neg (by decide), if_neg (by decide), if_neg (by decide),
    if_neg (by decide), if_pos rfl]

theorem callTool_unknown_eq (reg : WidgetRegistry) (name : String)
    (rawArgs : Option Jv) (st : Db) (h : name ∉ toolNames) :
    callTool reg name rawArgs st =
      (.ok
        { content := ["Unknown tool: " ++ name]
          hasStructured := false
          isError := true
          meta := none }, st) := by
  have h' : name ∉ ["show-hr-dashboard", "show-consultant-profile", "search-consultants",
      "show-bulk-editor", "update-consultant", "bulk-update-consultants",
      "show-project-details", "assign-consultant-to-project", "bulk-assign-consultants",
      "remove-assignment"] := by
    intro hc
    exact h (by simpa [toolNames, tools] using hc)
  simp only [List.mem_cons, List.not_mem_nil, or_false, not_or] at h'
  obtain ⟨h1, h2, h3, h4, h5, h6, h7, h8, h9, h10⟩ := h'
  unfold callTool
  rw [if_neg h1, if_neg h2, if_neg h3, if_neg h4, if_neg h5, if_neg h6, if_neg h7,
    if_neg h8, if_neg h9, if_neg h10]

theorem argsValid_dash_eq (args : Jv) :
    argsValid "show-hr-dashboard" args = (dashboardParse args).isSome := by
  unfold argsValid
  rw [if_pos rfl]

theorem argsValid_profile_eq (args : Jv) :
    argsValid "show-consultant-profile" args = (profileParse args).isSome := by
  unfold argsValid
  rw [if_neg (by decide), if_pos rfl]

theorem argsValid_search_eq (args : Jv) :
    argsValid "search-consultants" args = (searchParse args).isSome := by
  unfold argsValid
  rw [if_neg (by decide), if_neg (by decide), if_pos rfl]

theorem argsValid_bulkEditor_eq (args : Jv) :
    argsValid "show-bulk-editor" args = (bulkEditorParse args).isSome := by
  unfold argsValid
  rw [if_neg (by decide), if_neg (by decide), if_neg (by decide), if_pos rfl]

theorem argsValid_update_eq (args : Jv) :
    argsValid "update-consultant" args = (updateParse args).isSome := by
  unfold argsValid
  rw [if_neg (by decide), if_neg (by decide), if_neg (by decide), if_neg (by decide),
    if_pos rfl]

theorem argsValid_bulkUpdate_eq (args : Jv) :
    argsValid "bulk-update-consultants" args = (bulkUpdateParse args).isSome := by
  unfold argsValid
  rw [if_neg (by decide), if_neg (by decide), if_neg (by decide), if_neg (by decide),
    if_neg (by decide), if_pos rfl]

theorem argsValid_projectDetails_eq (args : Jv) :
    argsValid "show-project-details" args = (projectDetailParse args).isSome := by
  unfold argsValid
  rw [if_neg (by decide), if_neg (by decide), if_neg (by decide), if_neg (by decide),
    if_neg (by decide), if_neg (by decide), if_pos rfl]

theorem argsValid_assign_eq (args : Jv) :
    argsValid "assign-consultant-to-project" args = (assignConsultantParse args).isSome := by
  unfold argsValid
  rw [if_neg (by decide), if_neg (by decide), if_neg (by decide), if_neg (by decide),
    if_neg (by decide), if_neg (by decide), if_neg (by decide), if_pos rfl]

theorem argsValid_bulkAssign_eq (args : Jv) :
    argsValid "bulk-assign-consultants" args = (bulkAssignParse args).isSome := by
  unfold argsValid
  rw [if_neg (by decide), if_neg (by decide), if_neg (by decide), if_neg (by decide),
    if_neg (by decide), if_neg (by decide), if_neg (by decide), if_neg (by decide),
    if_pos rfl]

theorem argsValid_remove_eq (args : Jv) :
    argsValid "remove-assignment" args = (removeAssignmentParse args).isSome := by
  unfold argsValid
  rw [if_neg (by decide), if_neg (by decide), if_neg (by decide), if_neg (by decide),
    if_neg (by decide), if_neg (by decide), if_neg (by decide), if_neg (by decide),
    if_neg (by decide), if_pos rfl]

theorem isSome_false_eq_none {α : Type} {o : Option α} (h : o.isSome = false) : o = none := by
  cases o
  · rfl
  · simp at h

theorem validation_precedes_handler_main :
    ∀ (reg : WidgetRegistry) (name : String) (rawArgs : Option Jv) (st : Db),
      name ∈ toolNames →
      argsValid name (rawArgs.getD (.obj [])) = false →
      callTool reg name rawArgs st = (.error (.validation name), st) := by
  intro reg name rawArgs st hmem hvalid
  have hnames : name = "show-hr-dashboard" ∨ name = "show-consultant-profile" ∨
      name = "search-consultants" ∨ name = "show-bulk-editor" ∨
      name = "update-consultant" ∨ name = "bulk-update-consultants" ∨
      name = "show-project-details" ∨ name = "assign-consultant-to-project" ∨
      name = "bulk-assign-consultants" ∨ name = "remove-assignment" := by
    simpa [toolNames, tools] using hmem
  rcases hnames with rfl | rfl | rfl | rfl | rfl | rfl | rfl | rfl | rfl | rfl
  · rw [argsValid_dash_eq] at hvalid
    replace hvalid := isSome_false_eq_none hvalid
    rw [callTool_dash_eq]
    exact handleShowHrDashboard_validation _ _ _ hvalid
  · rw [argsValid_profile_eq] at hvalid
    replace hvalid := isSome_false_eq_none hvalid
    rw [callTool_profile_eq]
    exact handleShowConsultantProfile_validation _ _ _ hvalid
  · rw [argsValid_search_eq] at hvalid
    replace hvalid := isSome_false_eq_none hvalid
    rw [callTool_search_eq]
    exact handleSearchConsultants_validation _ _ _ hvalid
  · rw [argsValid_bulkEditor_eq] at hvalid
    replace hvalid := isSome_false_eq_none hvalid
    rw [callTool_bulkEditor_eq]
    exact handleShowBulkEditor_validation _ _ _ hvalid
  · rw [argsValid_update_eq] at hvalid
    replace hvalid := isSome_false_eq_none hvalid
    rw [callTool_update_eq]
    exact handleUpdateConsultant_validation _ _ hvalid
  · rw [argsValid_bulkUpdate_eq] at hvalid
    replace hvalid := isSome_false_eq_none hvalid
    rw [callTool_bulkUpdate_eq]
    exact handleBulkUpdateConsultants_validation _ _ hvalid
  · rw [argsValid_projectDetails_eq] at hvalid
    replace hvalid := isSome_false_eq_none hvalid
    rw [callTool_projectDetails_eq]
    exact handleShowProjectDetails_validation _ _ _ hvalid
  · rw [argsValid_assign_eq] at hvalid
    replace hvalid := isSome_false_eq_none hvalid
    rw [callTool_assign_eq]
    exact handleAssignConsultant_validation _ _ hvalid
  · rw [argsValid_bulkAssign_eq] at hvalid
    replace hvalid := isSome_false_eq_none hvalid
    rw [callTool_bulkAssign_eq]
    exact handleBulkAssignConsultants_validation _ _ hvalid
  · rw [argsValid_remove_eq] at hvalid
    replace hvalid := isSome_false_eq_none hvalid
    rw [callTool_remove_eq]
    exact handleRemoveAssignment_validation _ _ hvalid

theorem valid_args_reach_handler_main :
    ∀ (reg : WidgetRegistry) (name : String) (rawArgs : Option Jv) (st : Db) (tn : String),
      argsValid name (rawArgs.getD (.obj [])) = true →
      (callTool reg name rawArgs st).1 ≠ .error (.validation tn) := by
  intro reg name rawArgs st tn hvalid
  by_cases h1 : name = "show-hr-dashboard"
  · subst h1
    rw [callTool_dash_eq]
    exact handleShowHrDashboard_not_validation _ _ _ _ ((argsValid_dash_eq _) ▸ hvalid)
  by_cases h2 : name = "show-consultant-profile"
  · subst h2
    rw [callTool_profile_eq]
    exact handleShowConsultantProfile_not_validation _ _ _ _ ((argsValid_profile_eq _) ▸ hvalid)
  by_cases h3 : name = "search-consultants"
  · subst h3
    rw [callTool_search_eq]
    exact handleSearchConsultants_not_validation _ _ _ _ ((argsValid_search_eq _) ▸ hvalid)
  by_cases h4 : name = "show-bulk-editor"
  · subst h4
    rw [callTool_bulkEditor_eq]
    exact handleShowBulkEditor_not_validation _ _ _ _ ((argsValid_bulkEditor_eq _) ▸ hvalid)
  by_cases h5 : name = "update-consultant"
  · subst h5
    rw [callTool_update_eq]
    exact handleUpdateConsultant_not_validation _ _ _ ((argsValid_update_eq _) ▸ hvalid)
  by_cases h6 : name = "bulk-update-consultants"
  · subst h6
    rw [callTool_bulkUpdate_eq]
    exact handleBulkUpdateConsultants_not_validation _ _ _ ((argsValid_bulkUpdate_eq _) ▸ hvalid)
  by_cases h7 : name = "show-project-details"
  · subst h7
    rw [callTool_projectDetails_eq]
    exact handleShowProjectDetails_not_validation _ _ _ _ ((argsValid_projectDetails_eq _) ▸ hvalid)
  by_cases h8 : name = "assign-consultant-to-project"
  · subst h8
    rw [callTool_assign_eq]
    exact handleAssignConsultant_not_validation _ _ _ ((argsValid_assign_eq _) ▸ hvalid)
  by_cases h9 : name = "bulk-assign-consultants"
  · subst h9
    rw [callTool_bulkAssign_eq]
    exact handleBulkAssignConsultants_not_validation _ _ _ ((argsValid_bulkAssign_eq _) ▸ hvalid)
  by_cases h10 : name = "remove-assignment"
  · subst h10
    rw [callTool_remove_eq]
    exact handleRemoveAssignment_not_validation _ _ _ ((argsValid_remove_eq _) ▸ hvalid)
  have hmem : name ∉ toolNames := by
    simp [toolNames, tools, h1, h2, h3, h4, h5, h6, h7, h8, h9, h10]
  rw [callTool_unknown_eq reg name rawArgs st hmem]
  simp

theorem widget_meta_iff_binding_main :
    ∀ (reg : WidgetRegistry) (td : ToolDef) (rawArgs : Option Jv) (st : Db)
      (resp : ToolResponse) (st' : Db),
      td ∈ tools →
      callTool reg td.name rawArgs st = (.ok resp, st') →
      resp.isError = false →
      (resp.meta.isSome = td.widgetBinding.isSome
        ∧ ∀ w, td.widgetBinding = some w →
            resp.meta = some (invocationMeta (widgetOf reg w))) := by
  intro reg td rawArgs st resp st' htd hcall he
  simp only [tools, List.mem_cons, List.not_mem_nil, or_false] at htd
  rcases htd with rfl | rfl | rfl | rfl | rfl | rfl | rfl | rfl | rfl | rfl <;>
    dsimp only at hcall ⊢
  · rw [callTool_dash_eq] at hcall
    have := handleShowHrDashboard_ok _ _ _ _ _ hcall
    refine ⟨by rw [this.2]; rfl, ?_⟩
    intro w hw
    cases hw
    exact this.2
  · rw [callTool_profile_eq] at hcall
    have := handleShowConsultantProfile_ok _ _ _ _ _ hcall he
    refine ⟨by rw [this]; rfl, ?_⟩
    intro w hw
    cases hw
    exact this
  · rw [callTool_search_eq] at hcall
    have := handleSearchConsultants_ok _ _ _ _ _ hcall
    refine ⟨by rw [this.2]; rfl, ?_⟩
    intro w hw
    cases hw
    exact this.2
  · rw [callTool_bulkEditor_eq] at hcall
    have := handleShowBulkEditor_ok _ _ _ _ _ hcall
    refine ⟨by rw [this.2]; rfl, ?_⟩
    intro w hw
    cases hw
    exact this.2
  · rw [callTool_update_eq] at hcall
    have := handleUpdateConsultant_ok _ _ _ _ hcall
    refine ⟨by rw [this]; rfl, ?_⟩
    intro w hw
    cases hw
  · rw [callTool_bulkUpdate_eq] at hcall
    have := handleBulkUpdateConsultants_ok _ _ _ _ hcall
    refine ⟨by rw [this]; rfl, ?_⟩
    intro w hw
    cases hw
  · rw [callTool_projectDetails_eq] at hcall
    have := handleShowProjectDetails_ok _ _ _ _ _ hcall he
    refine ⟨by rw [this]; rfl, ?_⟩
    intro w hw
    cases hw
    exact this
  · rw [callTool_assign_eq] at hcall
    have := handleAssignConsultant_ok _ _ _ _ hcall
    refine ⟨by rw [this]; rfl, ?_⟩
    intro w hw
    cases hw
  · rw [callTool_bulkAssign_eq] at hcall
    have := handleBulkAssignConsultants_ok _ _ _ _ hcall
    refine ⟨by rw [this]; rfl, ?_⟩
    intro w hw
    cases hw
  · rw [callTool_remove_eq] at hcall
    have := handleRemoveAssignment_ok _ _ _ _ hcall
    refine ⟨by rw [this]; rfl, ?_⟩
    intro w hw
    cases hw

/-- C2: for every registered tool, every successful (non-error) call-tool
response carries `_meta` exactly when the tool's descriptor declares a
widget binding, and then the metadata is the bound widget's invocation
record (whose template URI is the widget's); the binding table is:
dashboard and project-details → hr-dashboard, consultant-profile →
consultant-profile, search and bulk-editor → bulk-editor, and the five
mutation tools are unbound. -/
theorem widget_meta_iff_binding :
    (∀ (reg : WidgetRegistry) (td : ToolDef) (rawArgs : Option Jv) (st : Db)
       (resp : ToolResponse) (st' : Db),
      td ∈ tools →
      callTool reg td.name rawArgs st = (.ok resp, st') →
      resp.isError = false →
      (resp.meta.isSome = td.widgetBinding.isSome
        ∧ ∀ w, td.widgetBinding = some w →
            resp.meta = some (invocationMeta (widgetOf reg w))))
    ∧ toolWidgetBinding "show-hr-dashboard" = some .dashboard
    ∧ toolWidgetBinding "show-project-details" = some .dashboard
    ∧ toolWidgetBinding "show-consultant-profile" = some .profile
    ∧ toolWidgetBinding "search-consultants" = some .bulkEditor
    ∧ toolWidgetBinding "show-bulk-editor" = some .bulkEditor
    ∧ toolWidgetBinding "update-consultant" = none
    ∧ toolWidgetBinding "bulk-update-consultants" = none
    ∧ toolWidgetBinding "assign-consultant-to-project" = none
    ∧ toolWidgetBinding "bulk-assign-consultants" = none
    ∧ toolWidgetBinding "remove-assignment" = none :=
  ⟨widget_meta_iff_binding_main, rfl, rfl, rfl, rfl, rfl, rfl, rfl, rfl, rfl, rfl⟩

/-- Witness for C2: the dashboard tool invoked on the empty store carries
the dashboard widget metadata; remove-assignment, successfully removing a
fixture assignment, carries none. -/
theorem widget_meta_iff_binding_witness :
    ((some (invocationMeta sampleRegistry.dashboard) : Option WidgetMeta).isSome =
      (some WidgetId.dashboard).isSome
      ∧ (some (invocationMeta sampleRegistry.dashboard) : Option WidgetMeta) =
        some (invocationMeta (widgetOf sampleRegistry WidgetId.dashboard)))
    ∧ ((none : Option WidgetMeta).isSome = (none : Option WidgetId).isSome) := by
  constructor
  · have h := widget_meta_iff_binding.1 sampleRegistry
      { name := "show-hr-dashboard", title := "Show HR Dashboard",
        widgetBinding := some .dashboard,
        destructiveHint := false, openWorldHint := false, readOnlyHint := true }
      none emptyDb
      { content := ["HR Dashboard: 0 consultants, 0 projects, 0 billable hours forecasted."]
        hasStructured := true
        isError := false
        meta := some (invocationMeta sampleRegistry.dashboard) }
      emptyDb (by decide) (by rfl) rfl
    exact ⟨h.1, h.2 WidgetId.dashboard rfl⟩
  · have h := widget_meta_iff_binding.1 sampleRegistry
      { name := "remove-assignment", title := "Remove Assignment",
        widgetBinding := none,
        destructiveHint := true, openWorldHint := false, readOnlyHint := false }
      (some (.obj [("projectId", .str "p1"), ("consultantId", .str "c1")]))
      assignmentOnlyDb
      { content := ["Removed assignment: consultant c1 from project p1."]
        hasStructured := false
        isError := false
        meta := none }
      { consultants := [], projects := [], assignments := [] }
      (by decide) (by rfl) rfl
    exact h.1

/-- C3: arguments failing a registered tool's runtime schema make
call-tool throw a validation failure before the handler body runs, with
the store unchanged; arguments satisfying the schema never produce a
validation failure (they reach the handler).  Concretely,
`show-consultant-profile` (required string `consultantId`) invoked with
the empty object fails validation, and with the field supplied
succeeds. -/
theorem validation_precedes_handler :
    (∀ (reg : WidgetRegistry) (name : String) (rawArgs : Option Jv) (st : Db),
      name ∈ toolNames →
      argsValid name (rawArgs.getD (.obj [])) = false →
      callTool reg name rawArgs st = (.error (.validation name), st))
    ∧ (∀ (reg : WidgetRegistry) (name : String) (rawArgs : Option Jv) (st : Db) (tn : String),
      argsValid name (rawArgs.getD (.obj [])) = true →
      (callTool reg name rawArgs st).1 ≠ .error (.validation tn))
    ∧ callTool sampleRegistry "show-consultant-profile" (some (.obj [])) sampleDb =
        (.error (.validation "show-consultant-profile"), sampleDb)
    ∧ (callTool sampleRegistry "show-consultant-profile"
          (some (.obj [("consultantId", .str "c1")])) sampleDb).1 =
        .ok
          { content := ["Profile for Avery Howard: TypeScript | 0 active assignment(s)."]
            hasStructured := true
            isError := false
            meta := some (invocationMeta sampleRegistry.profile) } :=
  ⟨validation_precedes_handler_main, valid_args_reach_handler_main, by rfl, by rfl⟩

/-- Witness for C3 at concrete inputs: `update-consultant` with the empty
object is rejected by validation with the store untouched, and with its
required field supplied it is never a validation failure. -/
theorem validation_precedes_handler_witness :
    callTool sampleRegistry "update-consultant" (some (.obj [])) sampleDb =
      (.error (.validation "update-consultant"), sampleDb)
    ∧ (callTool sampleRegistry "update-consultant"
        (some (.obj [("consultantId", .str "c1")])) sampleDb).1 ≠
      .error (.validation "update-consultant") := by
  constructor
  · exact validation_precedes_handler.1 sampleRegistry "update-consultant"
      (some (.obj [])) sampleDb (by decide) (by rfl)
  · exact validation_precedes_handler.2.1 sampleRegistry "update-consultant"
      (some (.obj [("consultantId", .str "c1")])) sampleDb "update-consultant" (by rfl)

theorem loadWidgets_inv {fsys : FsModel} {url : String} {reg : WidgetRegistry}
    (h : loadWidgets fsys url = .ok reg) :
    ∃ dashHtml profHtml bulkHtml,
      readWidgetHtml fsys url "hr-dashboard" = .ok dashHtml
      ∧ readWidgetHtml fsys url "consultant-profile" = .ok profHtml
      ∧ readWidgetHtml fsys url "bulk-editor" = .ok bulkHtml
      ∧ reg =
        { dashboard :=
            { id := "hr-dashboard"
              title := "HR Dashboard"
              templateUri := "ui://widget/hr-dashboard.html"
              invoking := "Loading HR dashboard…"
              invoked := "Dashboard ready"
              html := dashHtml }
          profile :=
            { id := "consultant-profile"
              title := "Consultant Profile"
              templateUri := "ui://widget/consultant-profile.html"
              invoking := "Loading consultant profile…"
              invoked := "Profile ready"
              html := profHtml }
          bulkEditor :=
            { id := "bulk-editor"
              title := "Bulk Editor"
              templateUri := "ui://widget/bulk-editor.html"
              invoking := "Opening bulk editor…"
              invoked := "Editor ready"
              html := bulkHtml } } := by
  unfold loadWidgets at h
  simp only [bind, Except.bind] at h
  cases h1 : readWidgetHtml fsys url "hr-dashboard" with
  | error e => rw [h1] at h; simp at h
  | ok dashHtml =>
    rw [h1] at h
    cases h2 : readWidgetHtml fsys url "consultant-profile" with
    | error e => rw [h2] at h; simp at h
    | ok profHtml =>
      rw [h2] at h
      cases h3 : readWidgetHtml fsys url "bulk-editor" with
      | error e => rw [h3] at h; simp at h
      | ok bulkHtml =>
        rw [h3] at h
        simp only [pure, Except.pure, Except.ok.injEq] at h
        exact ⟨dashHtml, profHtml, bulkHtml, rfl, rfl, rfl, h.symm⟩

/-- C5: on a loaded registry, `read-resource` with an unregistered uri
returns empty contents plus an error marker naming the uri (never a
throw), and with a registered uri exactly one contents entry holding
that widget's cached markup under MIME type `text/html+skybridge`. -/
theorem read_resource_contract :
    ∀ (fsys : FsModel) (url : String) (reg : WidgetRegistry),
      loadWidgets fsys url = .ok reg →
      (∀ uri : String, (∀ w ∈ getWidgets reg, w.templateUri ≠ uri) →
        readResource reg uri =
          { contents := [], metaError := some ("Unknown resource: " ++ uri) })
      ∧ (∀ w ∈ getWidgets reg,
        readResource reg w.templateUri =
          { contents := [{ uri := w.templateUri, mimeType := "text/html+skybridge",
                           text := w.html, meta := descriptorMeta w }],
            metaError := none }) := by
  intro fsys url reg hload
  obtain ⟨dashHtml, profHtml, bulkHtml, _, _, _, hreg⟩ := loadWidgets_inv hload
  subst hreg
  constructor
  · intro uri huri
    have hd : ¬ (("ui://widget/hr-dashboard.html" : String) = uri) :=
      huri ({ id := "hr-dashboard", title := "HR Dashboard",
              templateUri := "ui://widget/hr-dashboard.html",
              invoking := "Loading HR dashboard…", invoked := "Dashboard ready",
              html := dashHtml } : HRWidget) (by simp [getWidgets])
    have hp : ¬ (("ui://widget/consultant-profile.html" : String) = uri) :=
      huri ({ id := "consultant-profile", title := "Consultant Profile",
              templateUri := "ui://widget/consultant-profile.html",
              invoking := "Loading consultant profile…", invoked := "Profile ready",
              html := profHtml } : HRWidget) (by simp [getWidgets])
    have hb : ¬ (("ui://widget/bulk-editor.html" : String) = uri) :=
      huri ({ id := "bulk-editor", title := "Bulk Editor",
              templateUri := "ui://widget/bulk-editor.html",
              invoking := "Opening bulk editor…", invoked := "Editor ready",
              html := bulkHtml } : HRWidget) (by simp [getWidgets])
    unfold readResource widgetsByUri getWidgets
    simp only [List.reverse_cons, List.reverse_nil, List.nil_append, List.cons_append,
      List.find?]
    simp [hd, hp, hb]
  · intro w hw
    simp only [getWidgets, List.mem_cons, List.not_mem_nil, or_false] at hw
    rcases hw with rfl | rfl | rfl <;> rfl

/-- Witness for C5: on the registry loaded from `sampleAssets`, an
unregistered uri yields empty contents plus the error marker, and the
dashboard uri yields its single cached-markup entry. -/
theorem read_resource_contract_witness :
    readResource loadedSampleRegistry "ui://widget/nope.html" =
      { contents := [], metaError := some "Unknown resource: ui://widget/nope.html" }
    ∧ readResource loadedSampleRegistry "ui://widget/hr-dashboard.html" =
      { contents :=
          [{ uri := "ui://widget/hr-dashboard.html"
             mimeType := "text/html+skybridge"
             text := loadedSampleRegistry.dashboard.html
             meta := descriptorMeta loadedSampleRegistry.dashboard }]
        metaError := none } := by
  have h := read_resource_contract sampleAssets "http://localhost:8000"
    loadedSampleRegistry (by rfl)
  constructor
  · exact h.1 "ui://widget/nope.html" (by decide)
  · exact h.2 loadedSampleRegistry.dashboard (by simp [getWidgets])

/-- C6 counterexample: an artifact that exists with empty content is not
used — `foo.html` is present in the directory (content `""`), yet
`readWidgetHtml` raises the fatal `not found` error instead of using
that content, because the source's `if (!html) throw` is a falsiness
test. -/
theorem empty_artifact_not_used_cex :
    lookupFile [("foo.html", "")] ("foo" ++ ".html") = some ""
    ∧ readWidgetHtml (some [("foo.html", "")]) "http://localhost:8000" "foo" =
        .error "Widget HTML for foo not found."
    ∧ (readWidgetHtml (some [("foo.html", "")]) "http://localhost:8000" "foo").isOk =
        false :=
  ⟨rfl, rfl, rfl⟩

/-- C6 (amended): markup resolution tries the exact `{id}.html` entry
first and uses its content when nonempty (without consulting the hashed
fallback, even when that content is empty), otherwise uses the
lexicographically last `{id}-*.html` candidate's content when nonempty;
it throws when the asset directory is absent, when no artifact matches,
or when the selected artifact's content is empty (the source's JS
falsiness check treats it as missing); any such failure for one of the
three registered widget ids makes first-touch server construction
itself fail, before any request is answered. -/
theorem widget_markup_lookup_order :
    (∀ (files : List (String × String)) (url id h : String),
      lookupFile files (id ++ ".html") = some h →
      h ≠ "" →
      readWidgetHtml (some files) url id = .ok (injectServerUrl url h))
    ∧ (∀ (files : List (String × String)) (url id c h : String),
      lookupFile files (id ++ ".html") = none →
      c ∈ widgetCandidates files id →
      (∀ c' ∈ widgetCandidates files id, strLe c' c = true) →
      lookupFile files c = some h →
      h ≠ "" →
      readWidgetHtml (some files) url id = .ok (injectServerUrl url h))
    ∧ (∀ (files : List (String × String)) (url id : String),
      lookupFile files (id ++ ".html") = none →
      widgetCandidates files id = [] →
      readWidgetHtml (some files) url id =
        .error ("Widget HTML for " ++ id ++ " not found."))
    ∧ (∀ url id : String,
      readWidgetHtml none url id =
        .error "Widget assets not found. Run npm run build:widgets first.")
    ∧ (∀ (files : List (String × String)) (url id : String),
      lookupFile files (id ++ ".html") = some "" →
      readWidgetHtml (some files) url id =
        .error ("Widget HTML for " ++ id ++ " not found."))
    ∧ (∀ (files : List (String × String)) (url id c : String),
      lookupFile files (id ++ ".html") = none →
      c ∈ widgetCandidates files id →
      (∀ c' ∈ widgetCandidates files id, strLe c' c = true) →
      lookupFile files c = some "" →
      readWidgetHtml (some files) url id =
        .error ("Widget HTML for " ++ id ++ " not found."))
    ∧ (∀ (fsys : FsModel) (url id : String),
      id ∈ ["hr-dashboard", "consultant-profile", "bulk-editor"] →
      (readWidgetHtml fsys url id).isOk = false →
      (createHRServer none fsys url).isOk = false) := by
  refine ⟨?_, ?_, ?_, ?_, ?_, ?_, ?_⟩
  · intro files url id h hexact hne
    unfold readWidgetHtml resolveWidgetMarkup
    dsimp only
    rw [hexact]
    dsimp only
    rw [if_neg hne]
  · intro files url id c h hexact hc hmax hlook hne
    unfold readWidgetHtml resolveWidgetMarkup
    dsimp only
    rw [hexact, sortedLast_eq_max hc hmax]
    dsimp only
    rw [hlook]
    dsimp only
    rw [if_neg hne]
  · intro files url id hexact hcand
    unfold readWidgetHtml resolveWidgetMarkup
    dsimp only
    rw [hexact, hcand]
    rfl
  · intro url id
    rfl
  · intro files url id hexact
    unfold readWidgetHtml resolveWidgetMarkup
    dsimp only
    rw [hexact]
    dsimp only
    rw [if_pos rfl]
  · intro files url id c hexact hc hmax hlook
    unfold readWidgetHtml resolveWidgetMarkup
    dsimp only
    rw [hexact, sortedLast_eq_max hc hmax]
    dsimp only
    rw [hlook]
    dsimp only
    rw [if_pos rfl]
  · intro fsys url id hid hfail
    simp only [List.mem_cons, List.not_mem_nil, or_false] at hid
    unfold createHRServer loadWidgets
    simp only [bind, Except.bind]
    rcases hid with rfl | rfl | rfl
    · cases h1 : readWidgetHtml fsys url "hr-dashboard" with
      | error e => rfl
      | ok v => rw [h1] at hfail; simp [Except.isOk, Except.toBool] at hfail
    · cases h1 : readWidgetHtml fsys url "hr-dashboard" with
      | error e => rfl
      | ok v =>
        cases h2 : readWidgetHtml fsys url "consultant-profile" with
        | error e => rfl
        | ok w => rw [h2] at hfail; simp [Except.isOk, Except.toBool] at hfail
    · cases h1 : readWidgetHtml fsys url "hr-dashboard" with
      | error e => rfl
      | ok v =>
        cases h2 : readWidgetHtml fsys url "consultant-profile" with
        | error e => rfl
        | ok w =>
          cases h3 : readWidgetHtml fsys url "bulk-editor" with
          | error e => rfl
          | ok x => rw [h3] at hfail; simp [Except.isOk, Except.toBool] at hfail

theorem replaceFirst_at_first {pat repl : List Char} (hne : pat ≠ []) :
    ∀ (pre post : List Char),
      (∀ i, i < pre.length → ¬ occursAt pat (pre ++ pat ++ post) i) →
      replaceFirst pat repl (pre ++ pat ++ post) = pre ++ repl ++ post := by
  intro pre
  induction pre with
  | nil =>
    intro post _
    cases pat with
    | nil => exact absurd rfl hne
    | cons c pc =>
      simp only [List.nil_append, List.cons_append]
      unfold replaceFirst
      rw [if_pos]
      · simp only [List.length_cons]
        have hsplit : c :: (pc ++ post) = (c :: pc) ++ post := rfl
        rw [hsplit, List.drop_left' (by simp)]
      · exact List.isPrefixOf_iff_prefix.mpr ⟨post, by simp⟩
  | cons a pre' ih =>
    intro post h
    have h0 : ¬ pat.isPrefixOf (a :: pre' ++ pat ++ post) := by
      have := h 0 (by simp)
      unfold occursAt at this
      simpa using this
    cases hpat : pat with
    | nil => exact absurd hpat hne
    | cons c pc =>
      rw [← hpat]
      simp only [List.cons_append]
      unfold replaceFirst
      rw [if_neg (by simpa using h0)]
      rw [ih post]
      intro i hi
      have := h (i + 1) (by simpa using Nat.succ_lt_succ hi)
      unfold occursAt at this ⊢
      simpa using this

theorem readWidgetHtml_ok_inv {fsys : FsModel} {url id h : String}
    (hok : readWidgetHtml fsys url id = .ok h) :
    ∃ files raw, fsys = some files
      ∧ resolveWidgetMarkup files id = some raw
      ∧ h = injectServerUrl url raw := by
  rcases fsys with _ | files
  · simp [readWidgetHtml] at hok
  · unfold readWidgetHtml at hok
    dsimp only at hok
    cases hres : resolveWidgetMarkup files id with
    | none => rw [hres] at hok; simp at hok
    | some raw =>
      simp only [hres] at hok
      by_cases h0 : raw = ""
      · rw [if_pos h0] at hok
        simp at hok
      · rw [if_neg h0] at hok
        simp only [Except.ok.injEq] at hok
        exact ⟨files, raw, rfl, hres, hok.symm⟩

/-- C7: the runtime-configuration snippet (carrying the public server
URL) is spliced in immediately after the markup's first `<head>` open
tag; this happens once per process, when `loadWidgets` populates the
registry — each cached widget markup is exactly the resolved artifact
with the snippet injected — and once the cache is populated, server
construction returns the identical registry (hence the identical
already-injected strings) without touching the asset store again. -/
theorem server_url_injected_once_at_load :
    (∀ (url : String) (pre post : List Char),
      (∀ i, i < pre.length → ¬ occursAt "<head>".data (pre ++ "<head>".data ++ post) i) →
      injectServerUrl url ⟨pre ++ "<head>".data ++ post⟩ =
        ⟨pre ++ "<head>".data ++ (serverUrlSnippet url).data ++ post⟩)
    ∧ (∀ (fsys : FsModel) (url : String) (reg : WidgetRegistry),
      loadWidgets fsys url = .ok reg →
      ∃ files rawD rawP rawB,
        fsys = some files
        ∧ resolveWidgetMarkup files "hr-dashboard" = some rawD
        ∧ reg.dashboard.html = injectServerUrl url rawD
        ∧ resolveWidgetMarkup files "consultant-profile" = some rawP
        ∧ reg.profile.html = injectServerUrl url rawP
        ∧ resolveWidgetMarkup files "bulk-editor" = some rawB
        ∧ reg.bulkEditor.html = injectServerUrl url rawB)
    ∧ (∀ (reg : WidgetRegistry) (fsys : FsModel) (url : String),
      createHRServer (some reg) fsys url = .ok reg) := by
  refine ⟨?_, ?_, ?_⟩
  · intro url pre post h
    unfold injectServerUrl strReplaceFirst
    have hdata : (("<head>" ++ serverUrlSnippet url : String)).data =
        "<head>".data ++ (serverUrlSnippet url).data := by
      simp [String.data_append]
    rw [hdata]
    have := @replaceFirst_at_first "<head>".data
      ("<head>".data ++ (serverUrlSnippet url).data) (by decide) pre post h
    simp only [String.data]
    rw [this]
    simp [List.append_assoc]
  · intro fsys url reg hload
    obtain ⟨dashHtml, profHtml, bulkHtml, hD, hP, hB, hreg⟩ := loadWidgets_inv hload
    obtain ⟨filesD, rawD, hfD, hresD, hhD⟩ := readWidgetHtml_ok_inv hD
    obtain ⟨filesP, rawP, hfP, hresP, hhP⟩ := readWidgetHtml_ok_inv hP
    obtain ⟨filesB, rawB, hfB, hresB, hhB⟩ := readWidgetHtml_ok_inv hB
    rw [hfD] at hfP hfB
    obtain rfl : filesD = filesP := by injection hfP
    obtain rfl : filesD = filesB := by injection hfB
    refine ⟨filesD, rawD, rawP, rawB, hfD, hresD, ?_, hresP, ?_, hresB, ?_⟩ <;>
      subst hreg
    · exact hhD
    · exact hhP
    · exact hhB
  · intro reg fsys url
    rfl

/-- Witness for C6 at `sampleAssetFiles`: exact match for the dashboard,
hashed fallback (lexicographically last) for the profile, fatal errors
for a missing id, a missing directory and empty-content artifacts, and
failed server construction when a registered widget's artifact is
absent. -/
theorem widget_markup_lookup_order_witness :
    readWidgetHtml (some sampleAssetFiles) "http://localhost:8000" "hr-dashboard" =
      .ok (injectServerUrl "http://localhost:8000"
        "<html><head></head><body>dash</body></html>")
    ∧ readWidgetHtml (some sampleAssetFiles) "http://localhost:8000" "consultant-profile" =
      .ok (injectServerUrl "http://localhost:8000"
        "<html><head></head><body>profC</body></html>")
    ∧ readWidgetHtml (some sampleAssetFiles) "http://localhost:8000" "missing-widget" =
      .error "Widget HTML for missing-widget not found."
    ∧ readWidgetHtml none "http://localhost:8000" "hr-dashboard" =
      .error "Widget assets not found. Run npm run build:widgets first."
    ∧ readWidgetHtml (some [("w.html", "")]) "http://localhost:8000" "w" =
      .error "Widget HTML for w not found."
    ∧ readWidgetHtml (some [("w-1.html", "")]) "http://localhost:8000" "w" =
      .error "Widget HTML for w not found."
    ∧ (createHRServer none (some [("bulk-editor.html", "x")]) "u").isOk = false := by
  refine ⟨?_, ?_, ?_, ?_, ?_, ?_, ?_⟩
  · exact widget_markup_lookup_order.1 sampleAssetFiles "http://localhost:8000"
      "hr-dashboard" "<html><head></head><body>dash</body></html>" (by rfl) (by decide)
  · exact widget_markup_lookup_order.2.1 sampleAssetFiles "http://localhost:8000"
      "consultant-profile" "consultant-profile-c3d4.html"
      "<html><head></head><body>profC</body></html>" (by rfl) (by decide) (by decide)
      (by rfl) (by decide)
  · exact widget_markup_lookup_order.2.2.1 sampleAssetFiles "http://localhost:8000"
      "missing-widget" (by rfl) (by rfl)
  · exact widget_markup_lookup_order.2.2.2.1 "http://localhost:8000" "hr-dashboard"
  · exact widget_markup_lookup_order.2.2.2.2.1 [("w.html", "")] "http://localhost:8000"
      "w" (by rfl)
  · exact widget_markup_lookup_order.2.2.2.2.2.1 [("w-1.html", "")] "http://localhost:8000"
      "w" "w-1.html" (by rfl) (by decide) (by decide) (by rfl)
  · exact widget_markup_lookup_order.2.2.2.2.2.2 (some [("bulk-editor.html", "x")]) "u"
      "hr-dashboard" (by decide) (by rfl)

/-- Witness for C7: splicing into a concrete markup, the loaded sample
registry's cached dashboard markup, and cache reuse. -/
theorem server_url_injected_once_at_load_witness :
    injectServerUrl "http://localhost:8000"
        ⟨"<html>".data ++ "<head>".data ++ "</head></html>".data⟩ =
      ⟨"<html>".data ++ "<head>".data ++
        (serverUrlSnippet "http://localhost:8000").data ++ "</head></html>".data⟩
    ∧ loadedSampleRegistry.dashboard.html =
      injectServerUrl "http://localhost:8000" "<html><head></head><body>dash</body></html>"
    ∧ createHRServer (some loadedSampleRegistry) none "elsewhere" =
      .ok loadedSampleRegistry := by
  refine ⟨?_, ?_, ?_⟩
  · exact server_url_injected_once_at_load.1 "http://localhost:8000"
      "<html>".data "</head></html>".data (by decide)
  · obtain ⟨files, rawD, rawP, rawB, hfiles, hresD, hhD, _, _, _, _⟩ :=
      server_url_injected_once_at_load.2.1 sampleAssets "http://localhost:8000"
        loadedSampleRegistry (by rfl)
    have hfe : files = sampleAssetFiles := by
      have : (some sampleAssetFiles : FsModel) = some files := hfiles
      injection this with h
      exact h.symm
    subst hfe
    have hconc : resolveWidgetMarkup sampleAssetFiles "hr-dashboard" =
        some "<html><head></head><body>dash</body></html>" := by rfl
    rw [hconc] at hresD
    injection hresD with hraw
    rw [hraw]
    exact hhD
  · exact server_url_injected_once_at_load.2.2 loadedSampleRegistry none "elsewhere"

theorem bulkUpdateRun_length (changes : ConsultantUpdates) :
    ∀ (ids : List String) (st : Db),
      (bulkUpdateRun changes ids st).1.length = ids.length := by
  intro ids
  induction ids with
  | nil => intro st; rfl
  | cons id rest ih =>
    intro st
    unfold bulkUpdateRun
    rcases hu : updateConsultant st id changes with ⟨uOpt, st2⟩
    simp [ih st2]

theorem bulkAssignRun_length (projectId role : String) (billable : Option Bool)
    (rate : Option Int) :
    ∀ (ids : List String) (st : Db),
      (bulkAssignRun projectId role billable rate ids st).1.length = ids.length := by
  intro ids
  induction ids with
  | nil => intro st; rfl
  | cons id rest ih =>
    intro st
    unfold bulkAssignRun
    cases hc : getConsultantById st id with
    | none => simp [ih st]
    | some c =>
      rcases hcr : createAssignment st projectId id role billable rate with ⟨e, st2⟩
      simp [ih st2]

/-- C10: the bulk mutation tools process ids in input order with one
result line per id; a missing consultant contributes a `✗` line while
later ids are still processed on the unchanged store; bulk-update never
raises the error flag, and bulk-assign raises it exactly when the target
project is missing, in which case the store is returned untouched (no
assignment created). -/
theorem bulk_tools_per_item_outcomes :
    (∀ (changes : ConsultantUpdates) (ids : List String) (st : Db),
      (bulkUpdateRun changes ids st).1.length = ids.length)
    ∧ (∀ (changes : ConsultantUpdates) (id : String) (rest : List String) (st : Db),
      getConsultantById st id = none →
      bulkUpdateRun changes (id :: rest) st =
        (("✗ Consultant " ++ id ++ " not found") :: (bulkUpdateRun changes rest st).1,
          (bulkUpdateRun changes rest st).2))
    ∧ (∀ (reg : WidgetRegistry) (rawArgs : Option Jv) (st : Db) (p : BulkUpdateArgs),
      bulkUpdateParse (rawArgs.getD (.obj [])) = some p →
      callTool reg "bulk-update-consultants" rawArgs st =
        (.ok
          { content := ["Bulk update complete:\n" ++
              joinSep "\n" (bulkUpdateRun p.changes p.consultantIds st).1]
            hasStructured := false
            isError := false
            meta := none }, (bulkUpdateRun p.changes p.consultantIds st).2))
    ∧ (∀ (projectId role : String) (billable : Option Bool) (rate : Option Int)
        (ids : List String) (st : Db),
      (bulkAssignRun projectId role billable rate ids st).1.length = ids.length)
    ∧ (∀ (projectId role : String) (billable : Option Bool) (rate : Option Int)
        (id : String) (rest : List String) (st : Db),
      getConsultantById st id = none →
      bulkAssignRun projectId role billable rate (id :: rest) st =
        (("✗ Consultant " ++ id ++ " not found") ::
            (bulkAssignRun projectId role billable rate rest st).1,
          (bulkAssignRun projectId role billable rate rest st).2))
    ∧ (∀ (reg : WidgetRegistry) (rawArgs : Option Jv) (st : Db) (p : BulkAssignArgs),
      bulkAssignParse (rawArgs.getD (.obj [])) = some p →
      getProjectById st p.projectId = none →
      callTool reg "bulk-assign-consultants" rawArgs st =
        (.ok
          { content := ["Project " ++ p.projectId ++ " not found."]
            hasStructured := false
            isError := true
            meta := none }, st))
    ∧ (∀ (reg : WidgetRegistry) (rawArgs : Option Jv) (st : Db) (p : BulkAssignArgs)
        (project : ProjectEntity),
      bulkAssignParse (rawArgs.getD (.obj [])) = some p →
      getProjectById st p.projectId = some project →
      callTool reg "bulk-assign-consultants" rawArgs st =
        (.ok
          { content := ["Bulk assignment to \"" ++ project.name ++ "\" complete:\n" ++
              joinSep "\n"
                (bulkAssignRun p.projectId p.role p.billable p.rate p.consultantIds st).1]
            hasStructured := false
            isError := false
            meta := none },
          (bulkAssignRun p.projectId p.role p.billable p.rate p.consultantIds st).2)) := by
  refine ⟨bulkUpdateRun_length, ?_, ?_, bulkAssignRun_length, ?_, ?_, ?_⟩
  · intro changes id rest st hmiss
    have hu : updateConsultant st id changes = (none, st) := by
      unfold updateConsultant
      rw [hmiss]
    conv_lhs => unfold bulkUpdateRun
    rw [hu]
  · intro reg rawArgs st p hp
    rw [callTool_bulkUpdate_eq]
    unfold handleBulkUpdateConsultants
    rw [hp]
  · intro projectId role billable rate id rest st hmiss
    conv_lhs => unfold bulkAssignRun
    rw [hmiss]
  · intro reg rawArgs st p hp hproj
    rw [callTool_bulkAssign_eq]
    unfold handleBulkAssignConsultants
    rw [hp]
    dsimp only
    rw [hproj]
  · intro reg rawArgs st p project hp hproj
    rw [callTool_bulkAssign_eq]
    unfold handleBulkAssignConsultants
    rw [hp]
    dsimp only
    rw [hproj]

/-- Witness for C10 at concrete inputs over `sampleDb` (consultant `c1`,
project `p1`): a missing consultant id `ghost` yields a `✗` line and
leaves the batch running on the unchanged store for both bulk tools;
bulk-update returns a non-error response; bulk-assign errors exactly for
a missing project and succeeds for `p1`. -/
theorem bulk_tools_per_item_outcomes_witness :
    bulkUpdateRun adaOnlyChanges ["ghost", "c1"] sampleDb =
      (("✗ Consultant ghost not found") ::
          (bulkUpdateRun adaOnlyChanges ["c1"] sampleDb).1,
        (bulkUpdateRun adaOnlyChanges ["c1"] sampleDb).2)
    ∧ callTool sampleRegistry "bulk-update-consultants"
        (some (.obj [("consultantIds", .arr [.str "ghost", .str "c1"]),
          ("name", .str "Ada")])) sampleDb =
      (.ok
        { content := ["Bulk update complete:\n" ++
            joinSep "\n" (bulkUpdateRun adaOnlyChanges ["ghost", "c1"] sampleDb).1]
          hasStructured := false
          isError := false
          meta := none },
        (bulkUpdateRun adaOnlyChanges ["ghost", "c1"] sampleDb).2)
    ∧ bulkAssignRun "p1" "Dev" none none ["ghost", "c1"] sampleDb =
      (("✗ Consultant ghost not found") ::
          (bulkAssignRun "p1" "Dev" none none ["c1"] sampleDb).1,
        (bulkAssignRun "p1" "Dev" none none ["c1"] sampleDb).2)
    ∧ callTool sampleRegistry "bulk-assign-consultants"
        (some (.obj [("projectId", .str "nope"),
          ("consultantIds", .arr [.str "c1"]), ("role", .str "Dev")])) sampleDb =
      (.ok
        { content := ["Project nope not found."]
          hasStructured := false
          isError := true
          meta := none }, sampleDb)
    ∧ callTool sampleRegistry "bulk-assign-consultants"
        (some (.obj [("projectId", .str "p1"),
          ("consultantIds", .arr [.str "ghost", .str "c1"]), ("role", .str "Dev")])) sampleDb =
      (.ok
        { content := ["Bulk assignment to \"Contoso Website\" complete:\n" ++
            joinSep "\n" (bulkAssignRun "p1" "Dev" none none ["ghost", "c1"] sampleDb).1]
          hasStructured := false
          isError := false
          meta := none },
        (bulkAssignRun "p1" "Dev" none none ["ghost", "c1"] sampleDb).2) := by
  refine ⟨?_, ?_, ?_, ?_, ?_⟩
  · exact bulk_tools_per_item_outcomes.2.1 adaOnlyChanges "ghost" ["c1"] sampleDb (by rfl)
  · exact bulk_tools_per_item_outcomes.2.2.1 sampleRegistry
      (some (.obj [("consultantIds", .arr [.str "ghost", .str "c1"]),
        ("name", .str "Ada")])) sampleDb ghostUpdateArgs (by rfl)
  · exact bulk_tools_per_item_outcomes.2.2.2.2.1 "p1" "Dev" none none
      "ghost" ["c1"] sampleDb (by rfl)
  · exact bulk_tools_per_item_outcomes.2.2.2.2.2.1 sampleRegistry
      (some (.obj [("projectId", .str "nope"),
        ("consultantIds", .arr [.str "c1"]), ("role", .str "Dev")])) sampleDb
      ghostAssignArgsNope (by rfl) (by rfl)
  · exact bulk_tools_per_item_outcomes.2.2.2.2.2.2 sampleRegistry
      (some (.obj [("projectId", .str "p1"),
        ("consultantIds", .arr [.str "ghost", .str "c1"]), ("role", .str "Dev")])) sampleDb
      ghostAssignArgsP1 sampleProject (by rfl) (by rfl)
